import Mathlib

/-!
# ChordGen: verification of the generative music engine

Shallow embedding of the ChordGen chord-progression engine
(`src/utils/musicTheory.ts`, `src/utils/chordGenerator.ts`,
`src/utils/basslineGenerator.ts`, `src/utils/chordPatternGenerator.ts`,
`src/utils/melodyGenerator.ts`, `src/hooks/useChordProgression.ts`)
together with proofs about its voicing, progression, reducer and
pattern-expansion operations.

MIDI note numbers are embedded as `Int`, beat positions / durations and
random draws as `Rat`.  JavaScript's `Math.random()` is modelled by an
explicit stream `RandStream : Nat → Rat` (each call consumes the value at
the current counter, which is threaded through the computation); the
assumption that draws lie in `[0, 1)` is the predicate `InUnit`.
-/

namespace ChordGenModel

/-- The twelve pitch classes (`NoteName` in `types.ts`). -/
inductive NoteName where
  | C | Cs | D | Ds | E | F | Fs | G | Gs | A | As | B
  deriving DecidableEq, Repr, Fintype

/-- `ScaleType` in `types.ts`. -/
inductive ScaleType where
  | major | minor
  deriving DecidableEq, Repr, Fintype

/-- The 21 chord qualities (`ChordQuality` in `types.ts`).
`dom7/dom9/dom11/dom13` stand for the TS string literals `'7'/'9'/'11'/'13'`. -/
inductive ChordQuality where
  | maj | min | dim | aug
  | maj7 | min7 | dom7 | dim7 | m7b5
  | maj9 | min9 | dom9
  | maj11 | min11 | dom11
  | maj13 | min13 | dom13
  | sus2 | sus4 | add9
  deriving DecidableEq, Repr, Fintype, Inhabited

/-- `Key` in `types.ts`. -/
structure Key where
  root : NoteName
  scale : ScaleType
  deriving DecidableEq, Repr

/-- `BorrowedFrom` in `types.ts` (the `null` case is modelled by
`Option BorrowedFrom` on the chord). -/
inductive BorrowedFrom where
  | parallelMinor | parallelMajor
  deriving DecidableEq, Repr

/-- The TS string literal of a `NoteName`. -/
def noteNameStr : NoteName → String
  | .C => "C" | .Cs => "C#" | .D => "D" | .Ds => "D#" | .E => "E" | .F => "F"
  | .Fs => "F#" | .G => "G" | .Gs => "G#" | .A => "A" | .As => "A#" | .B => "B"

/-- The TS string literal of a `ChordQuality`. -/
def qualityStr : ChordQuality → String
  | .maj => "maj" | .min => "min" | .dim => "dim" | .aug => "aug"
  | .maj7 => "maj7" | .min7 => "min7" | .dom7 => "7" | .dim7 => "dim7"
  | .m7b5 => "m7b5"
  | .maj9 => "maj9" | .min9 => "min9" | .dom9 => "9"
  | .maj11 => "maj11" | .min11 => "min11" | .dom11 => "11"
  | .maj13 => "maj13" | .min13 => "min13" | .dom13 => "13"
  | .sus2 => "sus2" | .sus4 => "sus4" | .add9 => "add9"

/-- JS `a.includes(b)` (contiguous substring test) on the quality's
string literal. -/
def qualityIncludes (q : ChordQuality) (sub : String) : Bool :=
  decide (List.IsInfix sub.toList (qualityStr q).toList)

/-! ### The random source

`Math.random()` is modelled by a stream of rationals; every call consumes
the value at the current counter, and the counter is threaded through the
computation explicitly. -/

/-- A stream of random draws. -/
abbrev RandStream := Nat → Rat

/-- `Math.random()` always returns a value in `[0, 1)`. -/
def InUnit (s : RandStream) : Prop := ∀ i, 0 ≤ s i ∧ s i < 1

/-- JS `Math.floor(r * n)` as a list index. -/
def randIdx (r : Rat) (n : Nat) : Nat := (⌊r * n⌋).toNat

/-- JS `arr[Math.floor(Math.random() * arr.length)]` (the `pickRandom`
helper of the chord generators). -/
def pickRandomD [Inhabited α] (l : List α) (r : Rat) : α :=
  l.getD (randIdx r l.length) default

/-- JS `Math.round` (round half toward positive infinity). -/
def jsRound (x : Rat) : Int := ⌊x + 1/2⌋

/-- JS `Math.abs` on rationals (kernel-computable form of `|·|`). -/
def ratAbs (x : Rat) : Rat := if x < 0 then -x else x

/-- JS `Math.abs` on integers (kernel-computable form of `|·|`). -/
def intAbs (x : Int) : Int := if x < 0 then -x else x

/-- `generateId` in the chord generators:
`Math.random().toString(36).substring(2, 9)`.  The base-36 rendering is
opaque to every property verified here, so the id is modelled as the
decimal rendering of the consumed draw. -/
def generateId (r : Rat) : String := toString r

namespace MusicTheory

/-- `NOTE_TO_MIDI` (octave 4) in `musicTheory.ts`. -/
def NOTE_TO_MIDI : NoteName → Int
  | .C => 60 | .Cs => 61 | .D => 62 | .Ds => 63 | .E => 64 | .F => 65
  | .Fs => 66 | .G => 67 | .Gs => 68 | .A => 69 | .As => 70 | .B => 71

/-- `NOTE_NAMES` in `musicTheory.ts`: all note names in order. -/
def NOTE_NAMES : List NoteName :=
  [.C, .Cs, .D, .Ds, .E, .F, .Fs, .G, .Gs, .A, .As, .B]

/-- `NOTE_NAMES.indexOf root` (every note name occurs, so the lookup
always succeeds). -/
def noteIdx : NoteName → Nat
  | .C => 0 | .Cs => 1 | .D => 2 | .Ds => 3 | .E => 4 | .F => 5
  | .Fs => 6 | .G => 7 | .Gs => 8 | .A => 9 | .As => 10 | .B => 11

/-- `NOTE_NAMES[n]` for an index already reduced `mod 12`. -/
def nthNote (n : Nat) : NoteName := NOTE_NAMES.getD (n % 12) .C

/-- `SCALE_INTERVALS` in `musicTheory.ts`. -/
def SCALE_INTERVALS : ScaleType → List Nat
  | .major => [0, 2, 4, 5, 7, 9, 11]
  | .minor => [0, 2, 3, 5, 7, 8, 10]

/-- `CHORD_INTERVALS` in `musicTheory.ts`: semitone offsets per quality. -/
def CHORD_INTERVALS : ChordQuality → List Int
  | .maj => [0, 4, 7]
  | .min => [0, 3, 7]
  | .dim => [0, 3, 6]
  | .aug => [0, 4, 8]
  | .maj7 => [0, 4, 7, 11]
  | .min7 => [0, 3, 7, 10]
  | .dom7 => [0, 4, 7, 10]
  | .dim7 => [0, 3, 6, 9]
  | .m7b5 => [0, 3, 6, 10]
  | .maj9 => [0, 4, 7, 11, 14]
  | .min9 => [0, 3, 7, 10, 14]
  | .dom9 => [0, 4, 7, 10, 14]
  | .sus2 => [0, 2, 7]
  | .sus4 => [0, 5, 7]
  | .add9 => [0, 4, 7, 14]
  | .maj11 => [0, 4, 11, 14, 17]
  | .min11 => [0, 3, 10, 14, 17]
  | .dom11 => [0, 10, 14, 17]
  | .maj13 => [0, 4, 11, 14, 21]
  | .min13 => [0, 3, 10, 14, 21]
  | .dom13 => [0, 4, 10, 14, 21]

/-- `CHORD_QUALITY_DISPLAY` in `musicTheory.ts`. -/
def CHORD_QUALITY_DISPLAY : ChordQuality → String
  | .maj => "" | .min => "m" | .dim => "dim" | .aug => "aug"
  | .maj7 => "maj7" | .min7 => "m7" | .dom7 => "7" | .dim7 => "dim7"
  | .m7b5 => "m7♭5"
  | .maj9 => "maj9" | .min9 => "m9" | .dom9 => "9"
  | .sus2 => "sus2" | .sus4 => "sus4" | .add9 => "add9"
  | .maj11 => "maj11" | .min11 => "m11" | .dom11 => "11"
  | .maj13 => "maj13" | .min13 => "m13" | .dom13 => "13"

/-- `getChordNotes` in `musicTheory.ts`. -/
def getChordNotes (root : NoteName) (quality : ChordQuality)
    (octave : Int := 4) : List Int :=
  let rootMidi := NOTE_TO_MIDI root + (octave - 4) * 12
  (CHORD_INTERVALS quality).map (fun interval => rootMidi + interval)

/-- `getChordDisplayName` in `musicTheory.ts`. -/
def getChordDisplayName (root : NoteName) (quality : ChordQuality) : String :=
  noteNameStr root ++ CHORD_QUALITY_DISPLAY quality

/-- `getScaleNotes` in `musicTheory.ts`. -/
def getScaleNotes (key : Key) : List NoteName :=
  let rootIndex := noteIdx key.root
  (SCALE_INTERVALS key.scale).map (fun interval => nthNote (rootIndex + interval))

/-- `getScaleDegreeNote` in `musicTheory.ts` (1-indexed degree). -/
def getScaleDegreeNote (key : Key) (degree : Nat) : NoteName :=
  let scaleNotes := getScaleNotes key
  scaleNotes.getD ((degree - 1) % scaleNotes.length) .C

/-- `isNoteInScale` in `musicTheory.ts`. -/
def isNoteInScale (midiNote : Int) (key : Key) : Bool :=
  let noteIndex := midiNote % 12
  let rootIndex := noteIdx key.root
  (SCALE_INTERVALS key.scale).any
    (fun interval => ((rootIndex + interval) % 12 : Int) = noteIndex)

/-- `midiToNoteName` in `musicTheory.ts`. -/
def midiToNoteName (midiNote : Int) : NoteName :=
  NOTE_NAMES.getD (midiNote % 12).toNat .C

/-- `midiToOctave` in `musicTheory.ts`. -/
def midiToOctave (midiNote : Int) : Int :=
  Int.fdiv midiNote 12 - 1

/-! ### Modal interchange (borrowed chords) -/

/-- `BorrowableChordDef` in `musicTheory.ts`:
(semitone offset from key root, quality, degree label). -/
abbrev BorrowableChordDef := Nat × ChordQuality × String

/-- `MAJOR_TO_MINOR_BORROWABLE`: chords a major key borrows from the
parallel minor (♭III, ♭VI, ♭VII, iv, ii°). -/
def MAJOR_TO_MINOR_BORROWABLE : List BorrowableChordDef :=
  [(3, .maj7, "♭III"),
   (8, .maj7, "♭VI"),
   (10, .dom7, "♭VII"),
   (5, .min7, "iv"),
   (2, .m7b5, "ii°")]

/-- `MINOR_TO_MAJOR_BORROWABLE`: chords a minor key borrows from the
parallel major (IV, V, II). -/
def MINOR_TO_MAJOR_BORROWABLE : List BorrowableChordDef :=
  [(5, .maj7, "IV"),
   (7, .dom7, "V"),
   (2, .min7, "II")]

/-- Result type of `getBorrowableChords`. -/
structure BorrowableChord where
  root : NoteName
  quality : ChordQuality
  degree : String
  borrowedFrom : BorrowedFrom
  deriving DecidableEq, Repr

instance : Inhabited BorrowableChord :=
  ⟨{ root := .C, quality := .maj, degree := "", borrowedFrom := .parallelMinor }⟩

/-- `getBorrowableChords` in `musicTheory.ts`. -/
def getBorrowableChords (key : Key) : List BorrowableChord :=
  let rootIndex := noteIdx key.root
  let borrowableList :=
    if key.scale = .major then MAJOR_TO_MINOR_BORROWABLE else MINOR_TO_MAJOR_BORROWABLE
  let borrowedFrom :=
    if key.scale = .major then BorrowedFrom.parallelMinor else BorrowedFrom.parallelMajor
  borrowableList.map (fun e =>
    { root := NOTE_NAMES.getD ((rootIndex + e.1) % 12) .C
      quality := e.2.1
      degree := e.2.2
      borrowedFrom := borrowedFrom })

/-- `getRandomBorrowableChord` in `musicTheory.ts` (`r` is the consumed
`Math.random()` draw). -/
def getRandomBorrowableChord (key : Key) (r : Rat) : BorrowableChord :=
  let borrowableChords := getBorrowableChords key
  pickRandomD borrowableChords r

/-! ### Voicing engine (`getVoicedChordNotes` and helpers) -/

/-- The `targetRange` argument of `getVoicedChordNotes`. -/
structure TargetRange where
  low : Int
  high : Int
  deriving DecidableEq, Repr

/-- The default target range `{ low: 48, high: 72 }`. -/
def defaultRange : TargetRange := ⟨48, 72⟩

/-- Insert into a sorted list, before the first element that is not
strictly smaller (keeps equal elements in their original order). -/
def insertSorted (le : α → α → Bool) (x : α) : List α → List α
  | [] => [x]
  | y :: ys => if le x y then x :: y :: ys else y :: insertSorted le x ys

/-- A stable insertion sort.  JS `Array.prototype.sort` is a stable sort,
and a stable sort's output is uniquely determined by the comparator, so
this models every `.sort(...)` call of the source exactly. -/
def stableSort (le : α → α → Bool) : List α → List α
  | [] => []
  | x :: xs => insertSorted le x (stableSort le xs)

/-- JS `array.sort((a, b) => a - b)`: sort ascending. -/
def sortAsc (l : List Int) : List Int :=
  stableSort (fun a b => decide (a ≤ b)) l

/-- JS `options.reduce((a, b) => Math.abs(a - c) < Math.abs(b - c) ? a : b)`
with a rational reference point `c` (used by `getCloseVoicing`, where the
reference is a running average). -/
def pickClosest (c : Rat) : List Int → Int
  | [] => 0
  | x :: xs =>
    xs.foldl (fun (a b : Int) =>
      if ratAbs ((a : Rat) - c) < ratAbs ((b : Rat) - c) then a else b) x

/-- The candidate pitches of one chord tone in closed voicing: octaves 2–6
intersected with the target range (`possibleNotes` in
`getVoicedChordNotes`). -/
def possibleNotesClosed (rootMidi interval : Int) (r : TargetRange) : List Int :=
  (([2, 3, 4, 5, 6] : List Int).map
      (fun octave => rootMidi + interval + (octave - 4) * 12)).filter
    (fun note => r.low ≤ note && note ≤ r.high)

/-- The candidate pitches of one upper-structure tone in open voicing:
octaves 3–6 intersected with `[low, high + 12]` (`upperPossibleNotes` in
`getVoicedChordNotes`). -/
def possibleNotesUpper (rootMidi interval : Int) (r : TargetRange) : List Int :=
  (([3, 4, 5, 6] : List Int).map
      (fun octave => rootMidi + interval + (octave - 4) * 12)).filter
    (fun note => r.low ≤ note && note ≤ r.high + 12)

/-- The voice-picking loop of `getCloseVoicing`: voices with an empty
candidate list are skipped; the first voice aims at the range centre, later
voices at the average of the already chosen pitches. -/
def closeLoop (centerNote : Rat) : List (List Int) → List Int → List Int
  | [], result => result
  | opts :: rest, result =>
    if opts.isEmpty then closeLoop centerNote rest result
    else
      let c : Rat := if result.isEmpty then centerNote
                     else (result.sum : Rat) / result.length
      closeLoop centerNote rest (result ++ [pickClosest c opts])

/-- `getCloseVoicing` in `musicTheory.ts`. -/
def getCloseVoicing (possibleNotes : List (List Int)) (targetRange : TargetRange) :
    List Int :=
  let centerNote : Rat := ((targetRange.low + targetRange.high : Int) : Rat) / 2
  sortAsc (closeLoop centerNote possibleNotes [])

/-- The explicit minimum-movement scan of `getSmoothedVoicing`
(`bestOption` / `minMovement`). -/
def pickBest (target : Int) : List Int → Int
  | [] => 0
  | x :: xs =>
    (List.foldl
      (fun (acc : Int × Int) option =>
        if intAbs (option - target) < acc.2 then (option, intAbs (option - target))
        else acc)
      (x, intAbs (x - target)) (x :: xs)).1

/-- JS `arr.reduce((a, b) => Math.abs(a - t) < Math.abs(b - t) ? a : b)`
with an integer reference point `t` (the `closestPrev` computation). -/
def pickClosestInt (target : Int) : List Int → Int
  | [] => 0
  | x :: xs =>
    xs.foldl (fun a b => if intAbs (a - target) < intAbs (b - target) then a else b) x

/-- The per-voice loop of `getSmoothedVoicing`, threading the voice index
`i`, the consumed options (`usedOptions`) and the consumed previous pitches
(`usedPrevNotes`).  The anchor selection mirrors
`availablePrevNotes[Math.min(i, len - 1)] || availablePrevNotes[centerIdx]`,
including the JS falsy fallback when the indexed pitch is `0`. -/
def smoothedLoop (sortedPrev : List Int) :
    List (List Int) → Nat → List Int → List Int → List Int
  | [], _, _, _ => []
  | opts :: rest, i, used, usedPrev =>
    let options := opts.filter (fun n => !used.contains n)
    if options.isEmpty then smoothedLoop sortedPrev rest (i + 1) used usedPrev
    else
      let availablePrev := sortedPrev.filter (fun n => !usedPrev.contains n)
      let target :=
        if availablePrev.isEmpty then
          sortedPrev.getD (sortedPrev.length / 2) 0
        else
          let v := availablePrev.getD (min i (availablePrev.length - 1)) 0
          if v ≠ 0 then v else availablePrev.getD (availablePrev.length / 2) 0
      let best := pickBest target options
      let usedPrevNext :=
        if availablePrev.isEmpty then usedPrev
        else pickClosestInt best availablePrev :: usedPrev
      best :: smoothedLoop sortedPrev rest (i + 1) (best :: used) usedPrevNext

/-- `getSmoothedVoicing` in `musicTheory.ts`. -/
def getSmoothedVoicing (possibleNotes : List (List Int)) (previousNotes : List Int) :
    List Int :=
  sortAsc (smoothedLoop (sortAsc previousNotes) possibleNotes 0 [] [])

/-- The drop-2 transform of the open-voicing branch: the second-highest
upper voice is lowered by one octave. -/
def drop2 (upperVoicing : List Int) : List Int :=
  let sortedUpper := sortAsc upperVoicing
  let dropIdx := sortedUpper.length - 2
  sortedUpper.set dropIdx (sortedUpper.getD dropIdx 0 - 12)

/-- `getVoicedChordNotes` in `musicTheory.ts`: the top-level voicing call
(`previousNotes = none` models the TS `null`). -/
def getVoicedChordNotes (root : NoteName) (quality : ChordQuality)
    (previousNotes : Option (List Int))
    (targetRange : TargetRange := defaultRange)
    (useOpenVoicing : Bool := false) : List Int :=
  let rootMidi := NOTE_TO_MIDI root
  let intervals := CHORD_INTERVALS quality
  if useOpenVoicing then
    let bassNote := rootMidi - 12
    let upperIntervals := intervals.filter (fun i => i ≠ 0)
    let upperPossibleNotes :=
      upperIntervals.map (fun interval => possibleNotesUpper rootMidi interval targetRange)
    let upperVoicing : List Int :=
      match previousNotes with
      | some prev =>
        if prev.length > 1 then
          let prevUpper := prev.filter (fun n => 48 < n)
          getSmoothedVoicing upperPossibleNotes
            (if prevUpper.length > 0 then prevUpper else prev)
        else getCloseVoicing upperPossibleNotes targetRange
      | none => getCloseVoicing upperPossibleNotes targetRange
    let upperVoicing2 :=
      if upperVoicing.length ≥ 3 then drop2 upperVoicing else upperVoicing
    sortAsc (bassNote :: upperVoicing2)
  else
    let possibleNotes :=
      intervals.map (fun interval => possibleNotesClosed rootMidi interval targetRange)
    match previousNotes with
    | none => getCloseVoicing possibleNotes targetRange
    | some prev =>
      if prev.length = 0 then getCloseVoicing possibleNotes targetRange
      else getSmoothedVoicing possibleNotes prev

/-! ### Candidate-list abbreviations and executable checks -/

/-- Pairwise disjointness of the candidate lists. -/
def DisjointLists (ls : List (List Int)) : Prop :=
  List.Pairwise (fun l1 l2 => ∀ x ∈ l1, x ∉ l2) ls

/-- The closed-voicing candidate lists of a chord at the default range. -/
def closedCands (root : NoteName) (q : ChordQuality) : List (List Int) :=
  (CHORD_INTERVALS q).map
    (fun interval => possibleNotesClosed (NOTE_TO_MIDI root) interval defaultRange)

/-- The open-voicing upper-structure candidate lists of a chord at the
default range. -/
def upperCands (root : NoteName) (q : ChordQuality) : List (List Int) :=
  ((CHORD_INTERVALS q).filter (fun i => i ≠ 0)).map
    (fun interval => possibleNotesUpper (NOTE_TO_MIDI root) interval defaultRange)

/-- Executable pairwise-disjointness check. -/
def disjointB : List (List Int) → Bool
  | [] => true
  | l :: rest =>
    (rest.all (fun l2 => l.all (fun x => decide (x ∉ l2)))) && disjointB rest

/-- Executable check: all candidate lists nonempty and pairwise disjoint. -/
def candsOK (ls : List (List Int)) : Bool :=
  ls.all (fun l => decide (l ≠ [])) && disjointB ls

end MusicTheory

/-! ### Shared data model (`types.ts`) -/

/-- `Chord` in `types.ts`. -/
structure Chord where
  id : String
  root : NoteName
  quality : ChordQuality
  notes : List Int
  displayName : String
  durationBeats : Rat
  borrowedFrom : Option BorrowedFrom := none
  borrowedDegree : Option String := none
  deriving DecidableEq, Repr

instance : Inhabited Chord :=
  ⟨{ id := "", root := .C, quality := .maj, notes := [], displayName := "",
     durationBeats := 0 }⟩

/-- `ChordProgression` in `types.ts`. -/
structure ChordProgression where
  id : String
  chords : List Chord
  label : String
  deriving DecidableEq, Repr

instance : Inhabited ChordProgression := ⟨{ id := "", chords := [], label := "" }⟩

/-- `Genre` in `types.ts`. -/
inductive Genre where
  | loFi | neoSoul | jazz | pop | rnb | rock | edm | hipHop | funk
  | house | ukGarage | futureBass
  | drumAndBass | trance | techno | dubstep | ambient
  | bossaNova | reggae | country | blues | gospel | metal
  | latin | cityPop
  deriving DecidableEq, Repr, Fintype

/-- The TS string literal of a `Genre`. -/
def genreStr : Genre → String
  | .loFi => "Lo-Fi" | .neoSoul => "Neo Soul" | .jazz => "Jazz" | .pop => "Pop"
  | .rnb => "R&B" | .rock => "Rock" | .edm => "EDM" | .hipHop => "Hip Hop"
  | .funk => "Funk" | .house => "House" | .ukGarage => "UK Garage"
  | .futureBass => "Future Bass" | .drumAndBass => "Drum & Bass"
  | .trance => "Trance" | .techno => "Techno" | .dubstep => "Dubstep"
  | .ambient => "Ambient" | .bossaNova => "Bossa Nova" | .reggae => "Reggae"
  | .country => "Country" | .blues => "Blues" | .gospel => "Gospel"
  | .metal => "Metal" | .latin => "Latin" | .cityPop => "City Pop"

/-- `Mood` in `types.ts`. -/
inductive Mood where
  | uplifting | melancholic | chill | dark | dreamy | energetic
  deriving DecidableEq, Repr, Fintype

/-- The TS string literal of a `Mood`. -/
def moodStr : Mood → String
  | .uplifting => "Uplifting" | .melancholic => "Melancholic" | .chill => "Chill"
  | .dark => "Dark" | .dreamy => "Dreamy" | .energetic => "Energetic"

/-- `SoundType` in `types.ts`. -/
inductive SoundType where
  | sine | piano | pad
  deriving DecidableEq, Repr

/-- `AppSettings` in `types.ts`. -/
structure AppSettings where
  key : Key
  tempo : Rat
  genre : Genre
  mood : Mood
  soundType : SoundType
  deriving DecidableEq, Repr

/-- `AppState` in `types.ts`. -/
structure AppState where
  settings : AppSettings
  mainProgression : ChordProgression
  bridgeProgressions : List ChordProgression
  deriving DecidableEq, Repr

namespace Bassline

/-- `BassNote` in `basslineGenerator.ts`. -/
structure BassNote where
  midiNote : Int
  startBeat : Rat
  durationBeats : Rat
  velocity : Rat
  deriving DecidableEq, Repr

/-- The bass-register `NOTE_TO_MIDI` table local to
`basslineGenerator.ts` (C2-B2). -/
def BASS_NOTE_TO_MIDI : NoteName → Int
  | .C => 36 | .Cs => 37 | .D => 38 | .Ds => 39 | .E => 40 | .F => 41
  | .Fs => 42 | .G => 43 | .Gs => 44 | .A => 45 | .As => 46 | .B => 47

/-- `getChordIntervals` in `basslineGenerator.ts`: the simplified
major/minor-family classifier over the quality's string literal. -/
def getChordIntervals (quality : ChordQuality) : Int × Int :=
  if qualityIncludes quality "min" || qualityIncludes quality "m7" ||
      quality = .dim7 || quality = .m7b5 then
    let fifth : Int := if qualityIncludes quality "b5" || quality = .dim7 then 6 else 7
    (3, fifth)
  else (4, 7)

/-- `getRootMidi` in `basslineGenerator.ts` (the `|| 36` fallback never
fires since the table is total over `NoteName`). -/
def getRootMidi (chord : Chord) : Int := BASS_NOTE_TO_MIDI chord.root

/-- `generateBassline` in `basslineGenerator.ts`.  `pattern` carries the
raw string of the TS union; an unhandled value falls through to the
`default` branch. -/
def generateBassline (chord : Chord) (pattern : String) (startBeat : Rat := 0) :
    List BassNote :=
  if pattern = "none" then []
  else
    let rootMidi := getRootMidi chord
    let third := (getChordIntervals chord.quality).1
    let fifth := (getChordIntervals chord.quality).2
    let duration := chord.durationBeats
    let velocity : Rat := 90
    if pattern = "root-only" then
      [{ midiNote := rootMidi, startBeat := startBeat, durationBeats := duration,
         velocity := velocity }]
    else if pattern = "root-fifth" then
      [{ midiNote := rootMidi, startBeat := startBeat,
         durationBeats := duration / 2, velocity := velocity },
       { midiNote := rootMidi + fifth, startBeat := startBeat + duration / 2,
         durationBeats := duration / 2, velocity := velocity - 10 }]
    else if pattern = "walking" then
      if duration ≥ 4 then
        let beatDuration := duration / 4
        [{ midiNote := rootMidi, startBeat := startBeat,
           durationBeats := beatDuration, velocity := velocity },
         { midiNote := rootMidi + third, startBeat := startBeat + beatDuration,
           durationBeats := beatDuration, velocity := velocity - 5 },
         { midiNote := rootMidi + fifth, startBeat := startBeat + beatDuration * 2,
           durationBeats := beatDuration, velocity := velocity - 5 },
         { midiNote := rootMidi + fifth + 2, startBeat := startBeat + beatDuration * 3,
           durationBeats := beatDuration, velocity := velocity - 10 }]
      else if duration ≥ 2 then
        [{ midiNote := rootMidi, startBeat := startBeat,
           durationBeats := duration / 2, velocity := velocity },
         { midiNote := rootMidi + fifth, startBeat := startBeat + duration / 2,
           durationBeats := duration / 2, velocity := velocity - 5 }]
      else
        [{ midiNote := rootMidi, startBeat := startBeat, durationBeats := duration,
           velocity := velocity }]
    else if pattern = "syncopated" then
      if duration ≥ 2 then
        (List.range (⌊duration⌋.toNat)).map (fun (i : Nat) =>
          { midiNote := if i % 2 = 0 then rootMidi else rootMidi + fifth,
            startBeat := startBeat + (i : Rat) + 1/2,
            durationBeats := 1/2,
            velocity := velocity - (if i % 2 = 0 then 0 else 10) })
      else
        [{ midiNote := rootMidi, startBeat := startBeat + 1/2, durationBeats := 1/2,
           velocity := velocity }]
    else if pattern = "octave" then
      if duration ≥ 1 then
        (List.range (⌊duration / (1/2 : Rat)⌋.toNat)).map (fun (i : Nat) =>
          { midiNote := if i % 2 = 0 then rootMidi else rootMidi + 12,
            startBeat := startBeat + (i : Rat) * (1/2),
            durationBeats := 1/2,
            velocity := if i % 2 = 0 then velocity else velocity - 15 })
      else
        [{ midiNote := rootMidi, startBeat := startBeat, durationBeats := duration,
           velocity := velocity }]
    else []

/-- The per-chord fold of `generateProgressionBassline`. -/
def progBassLoop (pattern : String) : List Chord → Rat → List BassNote
  | [], _ => []
  | chord :: rest, currentBeat =>
    generateBassline chord pattern currentBeat ++
      progBassLoop pattern rest (currentBeat + chord.durationBeats)

/-- `generateProgressionBassline` in `basslineGenerator.ts`. -/
def generateProgressionBassline (chords : List Chord) (pattern : String) :
    List BassNote :=
  if pattern = "none" then [] else progBassLoop pattern chords 0

end Bassline

namespace ChordPat

/-- `ChordNote` in `chordPatternGenerator.ts`. -/
structure ChordNote where
  midiNote : Int
  startBeat : Rat
  durationBeats : Rat
  velocity : Rat
  deriving DecidableEq, Repr

/-- `generateSustainPattern`: all notes at once for the full duration. -/
def generateSustainPattern (notes : List Int) (startBeat duration : Rat) :
    List ChordNote :=
  notes.map (fun midiNote =>
    { midiNote := midiNote, startBeat := startBeat, durationBeats := duration,
      velocity := 80 })

/-- `generateArpeggioUpPattern`: even subdivision capped at a sixteenth,
last segment absorbs the remaining duration. -/
def generateArpeggioUpPattern (notes : List Int) (startBeat duration : Rat) :
    List ChordNote :=
  let noteCount := notes.length
  let noteInterval := min (1/4 : Rat) (duration / noteCount)
  let noteDuration := noteInterval * (9/10)
  let lastNoteDuration := duration - noteInterval * ((noteCount : Rat) - 1)
  notes.enum.map (fun p =>
    let isLast := p.1 = noteCount - 1
    { midiNote := p.2,
      startBeat := startBeat + noteInterval * p.1,
      durationBeats := if isLast then lastNoteDuration else noteDuration,
      velocity := 75 + (p.1 : Rat) * 3 })

/-- `generateArpeggioDownPattern`: the same walk over the reversed notes. -/
def generateArpeggioDownPattern (notes : List Int) (startBeat duration : Rat) :
    List ChordNote :=
  let reversed := notes.reverse
  let noteCount := reversed.length
  let noteInterval := min (1/4 : Rat) (duration / noteCount)
  let noteDuration := noteInterval * (9/10)
  let lastNoteDuration := duration - noteInterval * ((noteCount : Rat) - 1)
  reversed.enum.map (fun p =>
    let isLast := p.1 = noteCount - 1
    { midiNote := p.2,
      startBeat := startBeat + noteInterval * p.1,
      durationBeats := if isLast then lastNoteDuration else noteDuration,
      velocity := 80 - (p.1 : Rat) * 2 })

/-- `generateStaccatoPattern`: eighth-note grid, short fixed hits; the
`break` when the offset reaches the duration is a `takeWhile`. -/
def generateStaccatoPattern (notes : List Int) (startBeat duration : Rat) :
    List ChordNote :=
  let hitCount := (⌊duration * 2⌋).toNat
  ((List.range hitCount).takeWhile
      (fun (i : Nat) => decide ((i : Rat) * (1/2) < duration))).flatMap
    (fun (i : Nat) =>
      notes.map (fun midiNote =>
        { midiNote := midiNote,
          startBeat := startBeat + (i : Rat) * (1/2),
          durationBeats := 3/20,
          velocity := if i % 2 = 0 then 85 else 65 }))

/-- `generateStrumPattern` of `chordPatternGenerator.ts` (fixed 0.03-beat
spread); the per-note velocity jitter consumes one draw per note. -/
def generateStrumPattern (notes : List Int) (startBeat duration : Rat)
    (s : RandStream) (c : Nat) : List ChordNote × Nat :=
  let strumDelay : Rat := 3/100
  (notes.enum.map (fun p =>
    let offset := strumDelay * p.1
    { midiNote := p.2,
      startBeat := startBeat + offset,
      durationBeats := duration - offset,
      velocity := 75 + s (c + p.1) * 10 }),
   c + notes.length)

/-- `generateChordWithPattern` in `chordPatternGenerator.ts`; the switch
on the pattern string falls back to the sustain pattern. -/
def generateChordWithPattern (chord : Chord) (pattern : String) (startBeat : Rat)
    (s : RandStream) (c : Nat) : List ChordNote × Nat :=
  let notes := MusicTheory.sortAsc chord.notes
  let duration := chord.durationBeats
  if pattern = "sustain" then (generateSustainPattern notes startBeat duration, c)
  else if pattern = "arpeggio-up" then
    (generateArpeggioUpPattern notes startBeat duration, c)
  else if pattern = "arpeggio-down" then
    (generateArpeggioDownPattern notes startBeat duration, c)
  else if pattern = "staccato" then
    (generateStaccatoPattern notes startBeat duration, c)
  else if pattern = "strum" then generateStrumPattern notes startBeat duration s c
  else (generateSustainPattern notes startBeat duration, c)

/-- The per-chord fold of `generateProgressionChordNotes`, accumulating
`currentBeat += chord.durationBeats`. -/
def progChordLoop (pattern : String) (s : RandStream) :
    List Chord → Rat → Nat → List ChordNote
  | [], _, _ => []
  | chord :: rest, currentBeat, c =>
    let r := generateChordWithPattern chord pattern currentBeat s c
    r.1 ++ progChordLoop pattern s rest (currentBeat + chord.durationBeats) r.2

/-- `generateProgressionChordNotes` in `chordPatternGenerator.ts`. -/
def generateProgressionChordNotes (chords : List Chord) (pattern : String)
    (s : RandStream) : List ChordNote :=
  progChordLoop pattern s chords 0 0

end ChordPat

namespace Melody

/-- `MelodyNote` in `melodyGenerator.ts`. -/
structure MelodyNote where
  midiNote : Int
  startBeat : Rat
  durationBeats : Rat
  velocity : Rat
  deriving DecidableEq, Repr

/-- `MELODY_MIN_NOTE` (C4). -/
def MELODY_MIN_NOTE : Int := 60

/-- `MELODY_MAX_NOTE` (C6). -/
def MELODY_MAX_NOTE : Int := 84

/-- The note-name based `isNoteInScale` local to `melodyGenerator.ts`. -/
def isNoteInScaleMel (midiNote : Int) (key : Key) : Bool :=
  (MusicTheory.getScaleNotes key).contains (MusicTheory.midiToNoteName midiNote)

/-- `snapToScale` in `melodyGenerator.ts`: search ±1 then ±2 semitones. -/
def snapToScale (midiNote : Int) (key : Key) : Int :=
  if isNoteInScaleMel midiNote key then midiNote
  else if isNoteInScaleMel (midiNote + 1) key then midiNote + 1
  else if isNoteInScaleMel (midiNote - 1) key then midiNote - 1
  else if isNoteInScaleMel (midiNote + 2) key then midiNote + 2
  else if isNoteInScaleMel (midiNote - 2) key then midiNote - 2
  else midiNote

/-- The inclusive integer range `[lo, hi]` used by the candidate scans. -/
def intRange (lo hi : Int) : List Int :=
  (List.range (hi + 1 - lo).toNat).map (fun (i : Nat) => lo + (i : Int))

/-- `getRandomChordTone` in `melodyGenerator.ts` (`r` is the consumed
draw). -/
def getRandomChordTone (chord : Chord) (r : Rat) : Int :=
  let baseNotes := MusicTheory.getChordNotes chord.root chord.quality
  let toneClasses := baseNotes.map (fun n => n % 12)
  let candidates :=
    (intRange MELODY_MIN_NOTE MELODY_MAX_NOTE).filter
      (fun note => toneClasses.contains (note % 12))
  if candidates.isEmpty then 60 else candidates.getD (randIdx r candidates.length) 60

/-- `getRandomScaleTone` in `melodyGenerator.ts`. -/
def getRandomScaleTone (key : Key) (r : Rat) : Int :=
  let candidates :=
    (intRange MELODY_MIN_NOTE MELODY_MAX_NOTE).filter
      (fun note => isNoteInScaleMel note key)
  if candidates.isEmpty then 60 else candidates.getD (randIdx r candidates.length) 60

/-- Fuel bound for the beat-filling `while` loops: every iteration
advances `currentBeat` by at least half a beat or finishes the loop, so
`2⌈d⌉ + 2` iterations always suffice. -/
def melodyFuel (d : Rat) : Nat := 2 * (⌈d⌉).toNat + 2

/-- The `'simple'` beat-filling loop (1-2 beat notes, 80 % chord tones). -/
def simpleLoop (chord : Chord) (key : Key) (startBeat : Rat) (s : RandStream) :
    Nat → Rat → Nat → List MelodyNote × Nat
  | 0, _, c => ([], c)
  | fuel + 1, currentBeat, c =>
    if currentBeat < chord.durationBeats then
      let remaining := chord.durationBeats - currentBeat
      let dc : Rat × Nat :=
        if remaining ≥ 2 then (if s c > 1/2 then (2, c + 1) else (1, c + 1))
        else if remaining ≥ 1 then (1, c)
        else (remaining, c)
      let pm : Int × Nat :=
        if s dc.2 < 4/5 then (getRandomChordTone chord (s (dc.2 + 1)), dc.2 + 2)
        else (getRandomScaleTone key (s (dc.2 + 1)), dc.2 + 2)
      let vel : Rat := 90 + (⌊s pm.2 * 10⌋ : Int)
      let res := simpleLoop chord key startBeat s fuel (currentBeat + dc.1) (pm.2 + 1)
      ({ midiNote := pm.1, startBeat := startBeat + currentBeat,
         durationBeats := dc.1, velocity := vel } :: res.1, res.2)
    else ([], c)

/-- The `'smooth'` loop: ±2 scale-step walk with octave wrap. -/
def smoothLoop (chord : Chord) (key : Key) (startBeat : Rat) (s : RandStream) :
    Nat → Rat → Int → Nat → List MelodyNote × Nat
  | 0, _, _, c => ([], c)
  | fuel + 1, currentBeat, lastNote, c =>
    if currentBeat < chord.durationBeats then
      let remaining := chord.durationBeats - currentBeat
      let dc : Rat × Nat :=
        if remaining ≥ 1 then (if s c > 7/10 then (1, c + 1) else (1/2, c + 1))
        else (1/2, c)
      let interval : Int := ⌊s dc.2 * 5⌋ - 2
      let next0 := snapToScale (lastNote + interval) key
      let next1 := if next0 < MELODY_MIN_NOTE then next0 + 12 else next0
      let nextNote := if next1 > MELODY_MAX_NOTE then next1 - 12 else next1
      let vel : Rat := 85 + (⌊s (dc.2 + 1) * 15⌋ : Int)
      let res := smoothLoop chord key startBeat s fuel (currentBeat + dc.1) nextNote
        (dc.2 + 2)
      ({ midiNote := nextNote, startBeat := startBeat + currentBeat,
         durationBeats := dc.1, velocity := vel } :: res.1, res.2)
    else ([], c)

/-- The `'rhythmic'` loop: fixed note-length set, 10 % rest chance. -/
def rhythmicLoop (chord : Chord) (key : Key) (startBeat : Rat) (s : RandStream) :
    Nat → Rat → Nat → List MelodyNote × Nat
  | 0, _, c => ([], c)
  | fuel + 1, currentBeat, c =>
    if currentBeat < chord.durationBeats then
      let beatTypes : List Rat := [1/2, 1/2, 1, 3/2]
      let type := beatTypes.getD (randIdx (s c) beatTypes.length) 0
      let noteDur :=
        if currentBeat + type > chord.durationBeats then
          chord.durationBeats - currentBeat
        else type
      let isRest := s (c + 1) < 1/10
      let nc : List MelodyNote × Nat :=
        if !isRest && noteDur > 0 then
          ([{ midiNote := getRandomScaleTone key (s (c + 2)),
              startBeat := startBeat + currentBeat,
              durationBeats := noteDur, velocity := 95 }], c + 3)
        else ([], c + 2)
      if noteDur ≤ 0 then (nc.1, nc.2)
      else
        let res := rhythmicLoop chord key startBeat s fuel (currentBeat + noteDur) nc.2
        (nc.1 ++ res.1, res.2)
    else ([], c)

/-- `generateMelody` in `melodyGenerator.ts`; a pattern value outside the
handled cases leaves the accumulated note list empty. -/
def generateMelody (chord : Chord) (key : Key) (pattern : String)
    (startBeat : Rat) (s : RandStream) (c : Nat) : List MelodyNote × Nat :=
  if pattern = "none" then ([], c)
  else if pattern = "simple" then
    simpleLoop chord key startBeat s (melodyFuel chord.durationBeats) 0 c
  else if pattern = "smooth" then
    let lastNote := getRandomChordTone chord (s c)
    smoothLoop chord key startBeat s (melodyFuel chord.durationBeats) 0 lastNote (c + 1)
  else if pattern = "rhythmic" then
    rhythmicLoop chord key startBeat s (melodyFuel chord.durationBeats) 0 c
  else ([], c)

/-- The per-chord fold of `generateProgressionMelody`. -/
def progMelodyLoop (key : Key) (pattern : String) (s : RandStream) :
    List Chord → Rat → Nat → List MelodyNote
  | [], _, _ => []
  | chord :: rest, currentBeat, c =>
    let r := generateMelody chord key pattern currentBeat s c
    r.1 ++ progMelodyLoop key pattern s rest (currentBeat + chord.durationBeats) r.2

/-- `generateProgressionMelody` in `melodyGenerator.ts`. -/
def generateProgressionMelody (chords : List Chord) (key : Key) (pattern : String)
    (s : RandStream) : List MelodyNote :=
  if pattern = "none" then [] else progMelodyLoop key pattern s chords 0 0

end Melody

namespace ChordGen

/-! Embedding of `src/utils/chordGenerator.ts`. -/

/-- `ProgressionTemplate`: (scale degree, quality) pairs. -/
abbrev ProgressionTemplate := List (Nat × ChordQuality)

/-- `PROGRESSION_TEMPLATES` in `chordGenerator.ts` (insertion order kept:
`Object.entries` enumerates string keys in that order). -/
def PROGRESSION_TEMPLATES : List (String × List ProgressionTemplate) := [
  ("Lo-Fi_Chill", [
    [(2, ChordQuality.min7), (5, ChordQuality.dom7), (1, ChordQuality.maj7), (6, ChordQuality.min7)],
    [(1, ChordQuality.maj9), (6, ChordQuality.min9), (2, ChordQuality.min7), (5, ChordQuality.dom9)],
    [(4, ChordQuality.maj7), (3, ChordQuality.min7), (2, ChordQuality.min7), (1, ChordQuality.maj9)]
  ]),
  ("Lo-Fi_Melancholic", [
    [(6, ChordQuality.min7), (4, ChordQuality.maj7), (1, ChordQuality.maj7), (5, ChordQuality.dom7)],
    [(2, ChordQuality.m7b5), (5, ChordQuality.dom7), (1, ChordQuality.min7), (4, ChordQuality.maj7)],
    [(1, ChordQuality.min9), (4, ChordQuality.maj7), (6, ChordQuality.min7), (5, ChordQuality.dom7)]
  ]),
  ("Lo-Fi_Dreamy", [
    [(1, ChordQuality.maj9), (3, ChordQuality.min7), (4, ChordQuality.maj9), (1, ChordQuality.maj7)],
    [(6, ChordQuality.min9), (2, ChordQuality.min7), (5, ChordQuality.dom9), (1, ChordQuality.maj9)]
  ]),
  ("Neo Soul_Chill", [
    [(2, ChordQuality.min9), (5, ChordQuality.dom9), (1, ChordQuality.maj9), (1, ChordQuality.maj9)],
    [(4, ChordQuality.maj9), (3, ChordQuality.min9), (6, ChordQuality.min9), (2, ChordQuality.min7)],
    [(1, ChordQuality.maj9), (4, ChordQuality.maj7), (3, ChordQuality.min7), (6, ChordQuality.min9)]
  ]),
  ("Neo Soul_Uplifting", [
    [(1, ChordQuality.maj9), (5, ChordQuality.dom9), (6, ChordQuality.min9), (4, ChordQuality.maj9)],
    [(2, ChordQuality.min9), (5, ChordQuality.dom9), (1, ChordQuality.maj9), (6, ChordQuality.min7)]
  ]),
  ("Neo Soul_Dreamy", [
    [(1, ChordQuality.maj9), (2, ChordQuality.min9), (3, ChordQuality.min7), (4, ChordQuality.maj9)],
    [(6, ChordQuality.min9), (5, ChordQuality.dom9), (4, ChordQuality.maj9), (1, ChordQuality.maj9)]
  ]),
  ("Jazz_Chill", [
    [(2, ChordQuality.min7), (5, ChordQuality.dom7), (1, ChordQuality.maj7), (6, ChordQuality.min7)],
    [(1, ChordQuality.maj7), (6, ChordQuality.min7), (2, ChordQuality.min7), (5, ChordQuality.dom7)]
  ]),
  ("Jazz_Melancholic", [
    [(1, ChordQuality.min7), (4, ChordQuality.min7), (5, ChordQuality.dom7), (1, ChordQuality.min7)],
    [(2, ChordQuality.m7b5), (5, ChordQuality.dom7), (1, ChordQuality.min7), (6, ChordQuality.dim7)]
  ]),
  ("Jazz_Uplifting", [
    [(1, ChordQuality.maj7), (2, ChordQuality.min7), (3, ChordQuality.min7), (4, ChordQuality.maj7)],
    [(1, ChordQuality.maj7), (4, ChordQuality.maj7), (5, ChordQuality.dom7), (1, ChordQuality.maj7)]
  ]),
  ("Pop_Uplifting", [
    [(1, ChordQuality.maj), (5, ChordQuality.maj), (6, ChordQuality.min), (4, ChordQuality.maj)],
    [(1, ChordQuality.maj), (4, ChordQuality.maj), (6, ChordQuality.min), (5, ChordQuality.maj)],
    [(4, ChordQuality.maj), (1, ChordQuality.maj), (5, ChordQuality.maj), (6, ChordQuality.min)]
  ]),
  ("Pop_Melancholic", [
    [(6, ChordQuality.min), (4, ChordQuality.maj), (1, ChordQuality.maj), (5, ChordQuality.maj)],
    [(1, ChordQuality.min), (6, ChordQuality.maj), (3, ChordQuality.maj), (7, ChordQuality.maj)]
  ]),
  ("Pop_Energetic", [
    [(1, ChordQuality.maj), (5, ChordQuality.maj), (6, ChordQuality.min), (4, ChordQuality.maj)],
    [(1, ChordQuality.maj), (3, ChordQuality.min), (4, ChordQuality.maj), (5, ChordQuality.maj)]
  ]),
  ("Pop_Chill", [
    [(1, ChordQuality.maj7), (5, ChordQuality.maj), (6, ChordQuality.min7), (4, ChordQuality.maj7)],
    [(1, ChordQuality.add9), (5, ChordQuality.sus4), (6, ChordQuality.min), (4, ChordQuality.add9)]
  ]),
  ("R&B_Chill", [
    [(1, ChordQuality.maj7), (6, ChordQuality.min7), (4, ChordQuality.maj7), (5, ChordQuality.dom7)],
    [(2, ChordQuality.min7), (5, ChordQuality.dom7), (1, ChordQuality.maj7), (4, ChordQuality.maj7)]
  ]),
  ("R&B_Uplifting", [
    [(1, ChordQuality.maj9), (4, ChordQuality.maj7), (5, ChordQuality.dom7), (6, ChordQuality.min7)],
    [(1, ChordQuality.maj7), (5, ChordQuality.dom7), (4, ChordQuality.maj7), (1, ChordQuality.maj7)]
  ]),
  ("R&B_Melancholic", [
    [(6, ChordQuality.min7), (5, ChordQuality.dom7), (4, ChordQuality.maj7), (1, ChordQuality.maj7)],
    [(2, ChordQuality.min7), (5, ChordQuality.dom7), (1, ChordQuality.min7), (4, ChordQuality.min7)]
  ]),
  ("Rock_Energetic", [
    [(1, ChordQuality.maj), (4, ChordQuality.maj), (5, ChordQuality.maj), (1, ChordQuality.maj)],
    [(1, ChordQuality.maj), (5, ChordQuality.maj), (4, ChordQuality.maj), (1, ChordQuality.maj)]
  ]),
  ("Rock_Dark", [
    [(1, ChordQuality.min), (6, ChordQuality.maj), (7, ChordQuality.maj), (1, ChordQuality.min)],
    [(1, ChordQuality.min), (4, ChordQuality.min), (5, ChordQuality.min), (1, ChordQuality.min)]
  ]),
  ("Rock_Uplifting", [
    [(1, ChordQuality.maj), (4, ChordQuality.maj), (1, ChordQuality.maj), (5, ChordQuality.maj)],
    [(1, ChordQuality.maj), (5, ChordQuality.maj), (6, ChordQuality.min), (4, ChordQuality.maj)]
  ]),
  ("EDM_Energetic", [
    [(1, ChordQuality.maj), (5, ChordQuality.maj), (6, ChordQuality.min), (4, ChordQuality.maj)],
    [(6, ChordQuality.min), (4, ChordQuality.maj), (1, ChordQuality.maj), (5, ChordQuality.maj)],
    [(1, ChordQuality.maj), (4, ChordQuality.maj), (6, ChordQuality.min), (5, ChordQuality.maj)]
  ]),
  ("EDM_Uplifting", [
    [(1, ChordQuality.maj), (5, ChordQuality.maj), (6, ChordQuality.min), (4, ChordQuality.maj)],
    [(4, ChordQuality.maj), (1, ChordQuality.maj), (5, ChordQuality.maj), (6, ChordQuality.min)],
    [(1, ChordQuality.maj), (3, ChordQuality.min), (4, ChordQuality.maj), (5, ChordQuality.maj)]
  ]),
  ("EDM_Dark", [
    [(6, ChordQuality.min), (4, ChordQuality.maj), (1, ChordQuality.maj), (5, ChordQuality.maj)],
    [(1, ChordQuality.min), (6, ChordQuality.maj), (3, ChordQuality.maj), (7, ChordQuality.maj)],
    [(6, ChordQuality.min), (7, ChordQuality.maj), (1, ChordQuality.maj), (1, ChordQuality.maj)]
  ]),
  ("EDM_Chill", [
    [(1, ChordQuality.maj7), (5, ChordQuality.maj), (6, ChordQuality.min7), (4, ChordQuality.maj7)],
    [(6, ChordQuality.min7), (4, ChordQuality.maj7), (1, ChordQuality.maj7), (5, ChordQuality.dom7)]
  ]),
  ("Hip Hop_Chill", [
    [(1, ChordQuality.min7), (4, ChordQuality.min7), (6, ChordQuality.maj7), (5, ChordQuality.dom7)],
    [(6, ChordQuality.min7), (5, ChordQuality.dom7), (4, ChordQuality.maj7), (1, ChordQuality.min7)],
    [(2, ChordQuality.min7), (5, ChordQuality.dom7), (1, ChordQuality.min7), (1, ChordQuality.min7)]
  ]),
  ("Hip Hop_Dark", [
    [(1, ChordQuality.min), (6, ChordQuality.maj), (7, ChordQuality.maj), (5, ChordQuality.maj)],
    [(1, ChordQuality.min7), (1, ChordQuality.min7), (4, ChordQuality.min7), (5, ChordQuality.dom7)],
    [(6, ChordQuality.min), (7, ChordQuality.maj), (1, ChordQuality.min), (5, ChordQuality.maj)]
  ]),
  ("Hip Hop_Melancholic", [
    [(6, ChordQuality.min7), (4, ChordQuality.maj7), (1, ChordQuality.maj7), (5, ChordQuality.dom7)],
    [(1, ChordQuality.min9), (4, ChordQuality.min7), (6, ChordQuality.maj7), (5, ChordQuality.dom7)],
    [(2, ChordQuality.m7b5), (5, ChordQuality.dom7), (1, ChordQuality.min7), (6, ChordQuality.maj7)]
  ]),
  ("Hip Hop_Energetic", [
    [(1, ChordQuality.min), (4, ChordQuality.min), (5, ChordQuality.maj), (1, ChordQuality.min)],
    [(6, ChordQuality.min), (5, ChordQuality.maj), (4, ChordQuality.maj), (1, ChordQuality.min)]
  ]),
  ("Funk_Energetic", [
    [(1, ChordQuality.dom7), (4, ChordQuality.dom7), (1, ChordQuality.dom7), (5, ChordQuality.dom7)],
    [(1, ChordQuality.dom9), (4, ChordQuality.dom7), (1, ChordQuality.dom9), (1, ChordQuality.dom9)],
    [(2, ChordQuality.min7), (5, ChordQuality.dom7), (1, ChordQuality.dom7), (1, ChordQuality.dom7)]
  ]),
  ("Funk_Chill", [
    [(1, ChordQuality.maj9), (4, ChordQuality.dom9), (1, ChordQuality.maj9), (5, ChordQuality.dom9)],
    [(2, ChordQuality.min7), (5, ChordQuality.dom9), (1, ChordQuality.maj7), (4, ChordQuality.dom7)],
    [(1, ChordQuality.dom7), (6, ChordQuality.min7), (2, ChordQuality.min7), (5, ChordQuality.dom7)]
  ]),
  ("Funk_Uplifting", [
    [(1, ChordQuality.maj7), (4, ChordQuality.dom7), (5, ChordQuality.dom7), (1, ChordQuality.maj7)],
    [(1, ChordQuality.dom9), (4, ChordQuality.dom9), (1, ChordQuality.dom9), (5, ChordQuality.dom9)],
    [(4, ChordQuality.dom7), (1, ChordQuality.dom7), (5, ChordQuality.dom7), (1, ChordQuality.dom7)]
  ]),
  ("Funk_Dark", [
    [(1, ChordQuality.min7), (4, ChordQuality.min7), (5, ChordQuality.dom7), (1, ChordQuality.min7)],
    [(1, ChordQuality.min7), (6, ChordQuality.maj7), (2, ChordQuality.m7b5), (5, ChordQuality.dom7)]
  ]),
  ("House_Energetic", [
    [(6, ChordQuality.min), (4, ChordQuality.maj), (1, ChordQuality.maj), (5, ChordQuality.maj)],
    [(1, ChordQuality.min7), (5, ChordQuality.dom7), (6, ChordQuality.maj7), (4, ChordQuality.maj7)],
    [(4, ChordQuality.maj), (1, ChordQuality.maj), (5, ChordQuality.maj), (6, ChordQuality.min)]
  ]),
  ("House_Uplifting", [
    [(1, ChordQuality.maj), (5, ChordQuality.maj), (6, ChordQuality.min), (4, ChordQuality.maj)],
    [(4, ChordQuality.maj7), (5, ChordQuality.maj), (6, ChordQuality.min), (1, ChordQuality.maj)],
    [(1, ChordQuality.maj), (4, ChordQuality.maj), (1, ChordQuality.maj), (5, ChordQuality.maj)]
  ]),
  ("House_Chill", [
    [(2, ChordQuality.min7), (5, ChordQuality.dom7), (1, ChordQuality.maj7), (4, ChordQuality.maj7)],
    [(1, ChordQuality.maj9), (6, ChordQuality.min7), (4, ChordQuality.maj9), (5, ChordQuality.dom7)],
    [(6, ChordQuality.min7), (2, ChordQuality.min7), (5, ChordQuality.dom7), (1, ChordQuality.maj7)]
  ]),
  ("House_Dreamy", [
    [(1, ChordQuality.maj7), (4, ChordQuality.maj9), (6, ChordQuality.min7), (5, ChordQuality.sus4)],
    [(4, ChordQuality.maj9), (5, ChordQuality.maj), (6, ChordQuality.min9), (1, ChordQuality.maj7)]
  ]),
  ("UK Garage_Chill", [
    [(1, ChordQuality.maj7), (6, ChordQuality.min7), (2, ChordQuality.min7), (5, ChordQuality.dom7)],
    [(4, ChordQuality.maj7), (3, ChordQuality.min7), (6, ChordQuality.min7), (5, ChordQuality.dom7)],
    [(1, ChordQuality.maj9), (4, ChordQuality.maj7), (5, ChordQuality.dom7), (6, ChordQuality.min7)]
  ]),
  ("UK Garage_Uplifting", [
    [(1, ChordQuality.maj7), (5, ChordQuality.dom7), (6, ChordQuality.min7), (4, ChordQuality.maj7)],
    [(4, ChordQuality.maj7), (1, ChordQuality.maj7), (5, ChordQuality.dom7), (6, ChordQuality.min7)],
    [(1, ChordQuality.maj), (4, ChordQuality.maj7), (6, ChordQuality.min7), (5, ChordQuality.dom7)]
  ]),
  ("UK Garage_Energetic", [
    [(6, ChordQuality.min7), (5, ChordQuality.dom7), (4, ChordQuality.maj7), (1, ChordQuality.maj7)],
    [(1, ChordQuality.maj7), (4, ChordQuality.maj7), (5, ChordQuality.dom7), (5, ChordQuality.dom7)],
    [(2, ChordQuality.min7), (5, ChordQuality.dom7), (1, ChordQuality.maj), (6, ChordQuality.min7)]
  ]),
  ("UK Garage_Dreamy", [
    [(1, ChordQuality.maj9), (6, ChordQuality.min9), (4, ChordQuality.maj9), (5, ChordQuality.dom9)],
    [(4, ChordQuality.maj9), (5, ChordQuality.add9), (6, ChordQuality.min7), (1, ChordQuality.maj9)]
  ]),
  ("Future Bass_Uplifting", [
    [(6, ChordQuality.min), (4, ChordQuality.maj), (1, ChordQuality.maj), (5, ChordQuality.maj)],
    [(1, ChordQuality.maj), (5, ChordQuality.maj), (6, ChordQuality.min), (4, ChordQuality.maj)],
    [(4, ChordQuality.maj), (5, ChordQuality.maj), (6, ChordQuality.min), (1, ChordQuality.maj)]
  ]),
  ("Future Bass_Energetic", [
    [(6, ChordQuality.min7), (4, ChordQuality.maj7), (1, ChordQuality.maj7), (5, ChordQuality.dom7)],
    [(1, ChordQuality.add9), (5, ChordQuality.add9), (6, ChordQuality.min), (4, ChordQuality.add9)],
    [(4, ChordQuality.maj), (1, ChordQuality.maj), (5, ChordQuality.sus4), (5, ChordQuality.maj)]
  ]),
  ("Future Bass_Dreamy", [
    [(1, ChordQuality.maj7), (4, ChordQuality.maj9), (6, ChordQuality.min7), (5, ChordQuality.add9)],
    [(6, ChordQuality.min9), (4, ChordQuality.maj9), (1, ChordQuality.maj9), (5, ChordQuality.add9)],
    [(4, ChordQuality.add9), (5, ChordQuality.add9), (6, ChordQuality.min7), (1, ChordQuality.maj7)]
  ]),
  ("Future Bass_Melancholic", [
    [(6, ChordQuality.min7), (3, ChordQuality.min7), (4, ChordQuality.maj7), (1, ChordQuality.maj7)],
    [(1, ChordQuality.min7), (6, ChordQuality.maj7), (4, ChordQuality.maj7), (5, ChordQuality.dom7)],
    [(6, ChordQuality.min), (4, ChordQuality.maj), (5, ChordQuality.maj), (3, ChordQuality.min)]
  ])
]
/-- `DEFAULT_PROGRESSIONS` in `chordGenerator.ts`. -/
def DEFAULT_PROGRESSIONS : List ProgressionTemplate :=
  [[(1, ChordQuality.maj7), (4, ChordQuality.maj7), (5, ChordQuality.dom7), (1, ChordQuality.maj7)],
   [(2, ChordQuality.min7), (5, ChordQuality.dom7), (1, ChordQuality.maj7), (6, ChordQuality.min7)],
   [(1, ChordQuality.maj), (5, ChordQuality.maj), (6, ChordQuality.min), (4, ChordQuality.maj)]]

/-- JS `PROGRESSION_TEMPLATES[key]` (record lookup by string key). -/
def lookupTemplates (key : String) : Option (List ProgressionTemplate) :=
  (PROGRESSION_TEMPLATES.find? (fun e => e.1 = key)).map (fun e => e.2)

/-- JS `k.startsWith(p)`. -/
def strStartsWith (s p : String) : Bool := p.toList.isPrefixOf s.toList

/-- The genre-wide union used by `getTemplates` when the exact
`"Genre_Mood"` lookup misses. -/
def genreUnion (genre : Genre) : List ProgressionTemplate :=
  (PROGRESSION_TEMPLATES.filter
    (fun e => strStartsWith e.1 (genreStr genre ++ "_"))).flatMap (fun e => e.2)

/-- `getTemplates` in `chordGenerator.ts`: exact `"Genre_Mood"` lookup,
else every template of the genre across moods, else the default bank. -/
def getTemplates (genre : Genre) (mood : Mood) : List ProgressionTemplate :=
  let key := genreStr genre ++ "_" ++ moodStr mood
  match lookupTemplates key with
  | some ts => ts
  | none =>
    let genreTemplates := genreUnion genre
    if genreTemplates.length > 0 then genreTemplates
    else DEFAULT_PROGRESSIONS

/-- `adjustForMinorKey` in `chordGenerator.ts`. -/
def adjustForMinorKey (degree : Nat) (quality : ChordQuality) (key : Key) :
    Nat × ChordQuality :=
  if key.scale = .minor then
    if degree = 1 ∧ quality = .maj then (1, ChordQuality.min)
    else if degree = 1 ∧ quality = .maj7 then (1, ChordQuality.min7)
    else if degree = 1 ∧ quality = .maj9 then (1, ChordQuality.min9)
    else if degree = 4 ∧ quality = .maj then (4, ChordQuality.min)
    else if degree = 4 ∧ quality = .maj7 then (4, ChordQuality.min7)
    else if degree = 5 ∧ quality = .maj then (5, ChordQuality.min)
    else if degree = 6 ∧ quality = .min then (6, ChordQuality.maj)
    else if degree = 6 ∧ quality = .min7 then (6, ChordQuality.maj7)
    else (degree, quality)
  else (degree, quality)

/-- `ENRICHMENT_CHANCE` in `chordGenerator.ts` (12 genres listed; a genre
missing from the record yields `undefined || 0`). -/
def ENRICHMENT_CHANCE : Genre → Rat
  | .neoSoul => 6/10
  | .jazz => 5/10
  | .loFi => 4/10
  | .rnb => 3/10
  | .hipHop => 2/10
  | .funk => 3/10
  | .rock => 0
  | .pop => 1/10
  | .edm => 1/10
  | .house => 2/10
  | .ukGarage => 4/10
  | .futureBass => 3/10
  | _ => 0

/-- The `upgrades` map of `enrichChord` (absent keys yield no options). -/
def upgrades : ChordQuality → List ChordQuality
  | .maj7 => [.maj9, .maj13]
  | .min7 => [.min9, .min11]
  | .dom7 => [.dom9, .dom13]
  | .maj9 => [.maj13]
  | .min9 => [.min11]
  | .dom9 => [.dom13]
  | _ => []

/-- `enrichChord` in `chordGenerator.ts`: one draw decides against the
genre's chance; on success a second draw picks the upgrade. -/
def enrichChord (quality : ChordQuality) (genre : Genre) (s : RandStream)
    (c : Nat) : ChordQuality × Nat :=
  let chance := ENRICHMENT_CHANCE genre
  if s c > chance then (quality, c + 1)
  else
    let options := upgrades quality
    if options.length > 0 then (pickRandomD options (s (c + 1)), c + 2)
    else (quality, c + 1)

/-- The genres voiced openly (`openVoicingGenres`). -/
def openVoicingGenres : List Genre := [.jazz, .neoSoul, .loFi]

/-- `createChordFromDegree` in `chordGenerator.ts`. -/
def createChordFromDegree (key : Key) (degree : Nat) (quality : ChordQuality)
    (previousNotes : Option (List Int)) (genre : Option Genre)
    (durationBeats : Rat := 4) (s : RandStream) (c : Nat) : Chord × Nat :=
  let adjusted := adjustForMinorKey degree quality key
  let eq : ChordQuality × Nat :=
    match genre with
    | some g => enrichChord adjusted.2 g s c
    | none => (adjusted.2, c)
  let adjustedQuality := eq.1
  let root := MusicTheory.getScaleDegreeNote key adjusted.1
  let useOpenVoicing :=
    match genre with
    | some g => openVoicingGenres.contains g
    | none => false
  let notes := MusicTheory.getVoicedChordNotes root adjustedQuality previousNotes
    MusicTheory.defaultRange useOpenVoicing
  ({ id := generateId (s eq.2), root := root, quality := adjustedQuality,
     notes := notes,
     displayName := MusicTheory.getChordDisplayName root adjustedQuality,
     durationBeats := durationBeats }, eq.2 + 1)

/-- The chord fold of `generateProgressionFromTemplate`, threading the
previous chord's notes as voicing context. -/
def genProgLoop (key : Key) (genre : Option Genre) :
    List (Nat × ChordQuality) → List Chord → RandStream → Nat → List Chord × Nat
  | [], chords, _, c => (chords, c)
  | dq :: rest, chords, s, c =>
    let previousNotes := (chords.getLast?).map (fun ch => ch.notes)
    let r := createChordFromDegree key dq.1 dq.2 previousNotes genre 4 s c
    genProgLoop key genre rest (chords ++ [r.1]) s r.2

/-- `generateProgressionFromTemplate` in `chordGenerator.ts`. -/
def generateProgressionFromTemplate (key : Key) (template : ProgressionTemplate)
    (label : String) (genre : Option Genre) (s : RandStream) (c : Nat) :
    ChordProgression × Nat :=
  let r := genProgLoop key genre template [] s c
  ({ id := generateId (s r.2), chords := r.1, label := label }, r.2 + 1)

/-- `generatePassingChord` in `chordGenerator.ts`. -/
def generatePassingChord (prevChord nextChord : Chord) (key : Key)
    (genre : Genre) (s : RandStream) (c : Nat) : Chord × Nat :=
  let prevRootMidi := MusicTheory.NOTE_TO_MIDI prevChord.root
  let nextRootMidi := MusicTheory.NOTE_TO_MIDI nextChord.root
  let scaleNotes := MusicTheory.getScaleNotes key
  let midpoint : Int := jsRound (((prevRootMidi + nextRootMidi : Int) : Rat) / 2)
  let midpointNote := MusicTheory.NOTE_NAMES.getD (midpoint % 12).toNat .C
  let passingRoot :=
    if scaleNotes.contains midpointNote then midpointNote
    else
      let distances := scaleNotes.map
        (fun note => (note, intAbs (MusicTheory.NOTE_TO_MIDI note - midpoint)))
      let sortedD := MusicTheory.stableSort (fun a b => decide (a.2 ≤ b.2)) distances
      (sortedD.headD (.C, 0)).1
  let passingQuality0 : ChordQuality :=
    if qualityIncludes prevChord.quality "min" || qualityIncludes nextChord.quality "min"
    then .min7 else .maj7
  let passingQuality1 : ChordQuality :=
    if prevChord.quality = .dom7 ∨ nextChord.quality = .dom7 then .dom7
    else passingQuality0
  let eq := enrichChord passingQuality1 genre s c
  let useOpenVoicing := openVoicingGenres.contains genre
  let notes := MusicTheory.getVoicedChordNotes passingRoot eq.1
    (some prevChord.notes) MusicTheory.defaultRange useOpenVoicing
  ({ id := generateId (s eq.2), root := passingRoot, quality := eq.1,
     notes := notes,
     displayName := MusicTheory.getChordDisplayName passingRoot eq.1,
     durationBeats := 2 }, eq.2 + 1)

end ChordGen

namespace ChordGenX

/-! Embedding of the extended chord generator (the revision with the
24-genre template bank, modal interchange and progression extension). -/

/-- `ProgressionTemplate` of the extended generator. -/
abbrev ProgressionTemplate := List (Nat × ChordQuality)

/-- `PROGRESSION_TEMPLATES` in the extended chord generator (insertion
order kept). -/
def PROGRESSION_TEMPLATES : List (String × List ProgressionTemplate) := [
  ("Lo-Fi_Chill", [
    [(2, ChordQuality.min7), (5, ChordQuality.dom7), (1, ChordQuality.maj7), (6, ChordQuality.min7)],
    [(1, ChordQuality.maj9), (6, ChordQuality.min9), (2, ChordQuality.min7), (5, ChordQuality.dom9)],
    [(4, ChordQuality.maj7), (3, ChordQuality.min7), (2, ChordQuality.min7), (1, ChordQuality.maj9)]
  ]),
  ("Lo-Fi_Melancholic", [
    [(6, ChordQuality.min7), (4, ChordQuality.maj7), (1, ChordQuality.maj7), (5, ChordQuality.dom7)],
    [(2, ChordQuality.m7b5), (5, ChordQuality.dom7), (1, ChordQuality.min7), (4, ChordQuality.maj7)],
    [(1, ChordQuality.min9), (4, ChordQuality.maj7), (6, ChordQuality.min7), (5, ChordQuality.dom7)]
  ]),
  ("Lo-Fi_Dreamy", [
    [(1, ChordQuality.maj9), (3, ChordQuality.min7), (4, ChordQuality.maj9), (1, ChordQuality.maj7)],
    [(6, ChordQuality.min9), (2, ChordQuality.min7), (5, ChordQuality.dom9), (1, ChordQuality.maj9)]
  ]),
  ("Neo Soul_Chill", [
    [(2, ChordQuality.min9), (5, ChordQuality.dom9), (1, ChordQuality.maj9), (1, ChordQuality.maj9)],
    [(4, ChordQuality.maj9), (3, ChordQuality.min9), (6, ChordQuality.min9), (2, ChordQuality.min7)],
    [(1, ChordQuality.maj9), (4, ChordQuality.maj7), (3, ChordQuality.min7), (6, ChordQuality.min9)]
  ]),
  ("Neo Soul_Uplifting", [
    [(1, ChordQuality.maj9), (5, ChordQuality.dom9), (6, ChordQuality.min9), (4, ChordQuality.maj9)],
    [(2, ChordQuality.min9), (5, ChordQuality.dom9), (1, ChordQuality.maj9), (6, ChordQuality.min7)]
  ]),
  ("Neo Soul_Dreamy", [
    [(1, ChordQuality.maj9), (2, ChordQuality.min9), (3, ChordQuality.min7), (4, ChordQuality.maj9)],
    [(6, ChordQuality.min9), (5, ChordQuality.dom9), (4, ChordQuality.maj9), (1, ChordQuality.maj9)]
  ]),
  ("Jazz_Chill", [
    [(2, ChordQuality.min7), (5, ChordQuality.dom7), (1, ChordQuality.maj7), (6, ChordQuality.min7)],
    [(1, ChordQuality.maj7), (6, ChordQuality.min7), (2, ChordQuality.min7), (5, ChordQuality.dom7)]
  ]),
  ("Jazz_Melancholic", [
    [(1, ChordQuality.min7), (4, ChordQuality.min7), (5, ChordQuality.dom7), (1, ChordQuality.min7)],
    [(2, ChordQuality.m7b5), (5, ChordQuality.dom7), (1, ChordQuality.min7), (6, ChordQuality.dim7)]
  ]),
  ("Jazz_Uplifting", [
    [(1, ChordQuality.maj7), (2, ChordQuality.min7), (3, ChordQuality.min7), (4, ChordQuality.maj7)],
    [(1, ChordQuality.maj7), (4, ChordQuality.maj7), (5, ChordQuality.dom7), (1, ChordQuality.maj7)]
  ]),
  ("Pop_Uplifting", [
    [(1, ChordQuality.maj), (5, ChordQuality.maj), (6, ChordQuality.min), (4, ChordQuality.maj)],
    [(1, ChordQuality.maj), (4, ChordQuality.maj), (6, ChordQuality.min), (5, ChordQuality.maj)],
    [(4, ChordQuality.maj), (1, ChordQuality.maj), (5, ChordQuality.maj), (6, ChordQuality.min)]
  ]),
  ("Pop_Melancholic", [
    [(6, ChordQuality.min), (4, ChordQuality.maj), (1, ChordQuality.maj), (5, ChordQuality.maj)],
    [(1, ChordQuality.min), (6, ChordQuality.maj), (3, ChordQuality.maj), (7, ChordQuality.maj)]
  ]),
  ("Pop_Energetic", [
    [(1, ChordQuality.maj), (5, ChordQuality.maj), (6, ChordQuality.min), (4, ChordQuality.maj)],
    [(1, ChordQuality.maj), (3, ChordQuality.min), (4, ChordQuality.maj), (5, ChordQuality.maj)]
  ]),
  ("Pop_Chill", [
    [(1, ChordQuality.maj7), (5, ChordQuality.maj), (6, ChordQuality.min7), (4, ChordQuality.maj7)],
    [(1, ChordQuality.add9), (5, ChordQuality.sus4), (6, ChordQuality.min), (4, ChordQuality.add9)]
  ]),
  ("R&B_Chill", [
    [(1, ChordQuality.maj7), (6, ChordQuality.min7), (4, ChordQuality.maj7), (5, ChordQuality.dom7)],
    [(2, ChordQuality.min7), (5, ChordQuality.dom7), (1, ChordQuality.maj7), (4, ChordQuality.maj7)]
  ]),
  ("R&B_Uplifting", [
    [(1, ChordQuality.maj9), (4, ChordQuality.maj7), (5, ChordQuality.dom7), (6, ChordQuality.min7)],
    [(1, ChordQuality.maj7), (5, ChordQuality.dom7), (4, ChordQuality.maj7), (1, ChordQuality.maj7)]
  ]),
  ("R&B_Melancholic", [
    [(6, ChordQuality.min7), (5, ChordQuality.dom7), (4, ChordQuality.maj7), (1, ChordQuality.maj7)],
    [(2, ChordQuality.min7), (5, ChordQuality.dom7), (1, ChordQuality.min7), (4, ChordQuality.min7)]
  ]),
  ("Rock_Energetic", [
    [(1, ChordQuality.maj), (4, ChordQuality.maj), (5, ChordQuality.maj), (1, ChordQuality.maj)],
    [(1, ChordQuality.maj), (5, ChordQuality.maj), (4, ChordQuality.maj), (1, ChordQuality.maj)]
  ]),
  ("Rock_Dark", [
    [(1, ChordQuality.min), (6, ChordQuality.maj), (7, ChordQuality.maj), (1, ChordQuality.min)],
    [(1, ChordQuality.min), (4, ChordQuality.min), (5, ChordQuality.min), (1, ChordQuality.min)]
  ]),
  ("Rock_Uplifting", [
    [(1, ChordQuality.maj), (4, ChordQuality.maj), (1, ChordQuality.maj), (5, ChordQuality.maj)],
    [(1, ChordQuality.maj), (5, ChordQuality.maj), (6, ChordQuality.min), (4, ChordQuality.maj)]
  ]),
  ("EDM_Energetic", [
    [(1, ChordQuality.maj), (5, ChordQuality.maj), (6, ChordQuality.min), (4, ChordQuality.maj)],
    [(6, ChordQuality.min), (4, ChordQuality.maj), (1, ChordQuality.maj), (5, ChordQuality.maj)],
    [(1, ChordQuality.maj), (4, ChordQuality.maj), (6, ChordQuality.min), (5, ChordQuality.maj)]
  ]),
  ("EDM_Uplifting", [
    [(1, ChordQuality.maj), (5, ChordQuality.maj), (6, ChordQuality.min), (4, ChordQuality.maj)],
    [(4, ChordQuality.maj), (1, ChordQuality.maj), (5, ChordQuality.maj), (6, ChordQuality.min)],
    [(1, ChordQuality.maj), (3, ChordQuality.min), (4, ChordQuality.maj), (5, ChordQuality.maj)]
  ]),
  ("EDM_Dark", [
    [(6, ChordQuality.min), (4, ChordQuality.maj), (1, ChordQuality.maj), (5, ChordQuality.maj)],
    [(1, ChordQuality.min), (6, ChordQuality.maj), (3, ChordQuality.maj), (7, ChordQuality.maj)],
    [(6, ChordQuality.min), (7, ChordQuality.maj), (1, ChordQuality.maj), (1, ChordQuality.maj)]
  ]),
  ("EDM_Chill", [
    [(1, ChordQuality.maj7), (5, ChordQuality.maj), (6, ChordQuality.min7), (4, ChordQuality.maj7)],
    [(6, ChordQuality.min7), (4, ChordQuality.maj7), (1, ChordQuality.maj7), (5, ChordQuality.dom7)]
  ]),
  ("Hip Hop_Chill", [
    [(1, ChordQuality.min7), (4, ChordQuality.min7), (6, ChordQuality.maj7), (5, ChordQuality.dom7)],
    [(6, ChordQuality.min7), (5, ChordQuality.dom7), (4, ChordQuality.maj7), (1, ChordQuality.min7)],
    [(2, ChordQuality.min7), (5, ChordQuality.dom7), (1, ChordQuality.min7), (1, ChordQuality.min7)]
  ]),
  ("Hip Hop_Dark", [
    [(1, ChordQuality.min), (6, ChordQuality.maj), (7, ChordQuality.maj), (5, ChordQuality.maj)],
    [(1, ChordQuality.min7), (1, ChordQuality.min7), (4, ChordQuality.min7), (5, ChordQuality.dom7)],
    [(6, ChordQuality.min), (7, ChordQuality.maj), (1, ChordQuality.min), (5, ChordQuality.maj)]
  ]),
  ("Hip Hop_Melancholic", [
    [(6, ChordQuality.min7), (4, ChordQuality.maj7), (1, ChordQuality.maj7), (5, ChordQuality.dom7)],
    [(1, ChordQuality.min9), (4, ChordQuality.min7), (6, ChordQuality.maj7), (5, ChordQuality.dom7)],
    [(2, ChordQuality.m7b5), (5, ChordQuality.dom7), (1, ChordQuality.min7), (6, ChordQuality.maj7)]
  ]),
  ("Hip Hop_Energetic", [
    [(1, ChordQuality.min), (4, ChordQuality.min), (5, ChordQuality.maj), (1, ChordQuality.min)],
    [(6, ChordQuality.min), (5, ChordQuality.maj), (4, ChordQuality.maj), (1, ChordQuality.min)]
  ]),
  ("Funk_Energetic", [
    [(1, ChordQuality.dom7), (4, ChordQuality.dom7), (1, ChordQuality.dom7), (5, ChordQuality.dom7)],
    [(1, ChordQuality.dom9), (4, ChordQuality.dom7), (1, ChordQuality.dom9), (1, ChordQuality.dom9)],
    [(2, ChordQuality.min7), (5, ChordQuality.dom7), (1, ChordQuality.dom7), (1, ChordQuality.dom7)]
  ]),
  ("Funk_Chill", [
    [(1, ChordQuality.maj9), (4, ChordQuality.dom9), (1, ChordQuality.maj9), (5, ChordQuality.dom9)],
    [(2, ChordQuality.min7), (5, ChordQuality.dom9), (1, ChordQuality.maj7), (4, ChordQuality.dom7)],
    [(1, ChordQuality.dom7), (6, ChordQuality.min7), (2, ChordQuality.min7), (5, ChordQuality.dom7)]
  ]),
  ("Funk_Uplifting", [
    [(1, ChordQuality.maj7), (4, ChordQuality.dom7), (5, ChordQuality.dom7), (1, ChordQuality.maj7)],
    [(1, ChordQuality.dom9), (4, ChordQuality.dom9), (1, ChordQuality.dom9), (5, ChordQuality.dom9)],
    [(4, ChordQuality.dom7), (1, ChordQuality.dom7), (5, ChordQuality.dom7), (1, ChordQuality.dom7)]
  ]),
  ("Funk_Dark", [
    [(1, ChordQuality.min7), (4, ChordQuality.min7), (5, ChordQuality.dom7), (1, ChordQuality.min7)],
    [(1, ChordQuality.min7), (6, ChordQuality.maj7), (2, ChordQuality.m7b5), (5, ChordQuality.dom7)]
  ]),
  ("House_Energetic", [
    [(6, ChordQuality.min), (4, ChordQuality.maj), (1, ChordQuality.maj), (5, ChordQuality.maj)],
    [(1, ChordQuality.min7), (5, ChordQuality.dom7), (6, ChordQuality.maj7), (4, ChordQuality.maj7)],
    [(4, ChordQuality.maj), (1, ChordQuality.maj), (5, ChordQuality.maj), (6, ChordQuality.min)]
  ]),
  ("House_Uplifting", [
    [(1, ChordQuality.maj), (5, ChordQuality.maj), (6, ChordQuality.min), (4, ChordQuality.maj)],
    [(4, ChordQuality.maj7), (5, ChordQuality.maj), (6, ChordQuality.min), (1, ChordQuality.maj)],
    [(1, ChordQuality.maj), (4, ChordQuality.maj), (1, ChordQuality.maj), (5, ChordQuality.maj)]
  ]),
  ("House_Chill", [
    [(2, ChordQuality.min7), (5, ChordQuality.dom7), (1, ChordQuality.maj7), (4, ChordQuality.maj7)],
    [(1, ChordQuality.maj9), (6, ChordQuality.min7), (4, ChordQuality.maj9), (5, ChordQuality.dom7)],
    [(6, ChordQuality.min7), (2, ChordQuality.min7), (5, ChordQuality.dom7), (1, ChordQuality.maj7)]
  ]),
  ("House_Dreamy", [
    [(1, ChordQuality.maj7), (4, ChordQuality.maj9), (6, ChordQuality.min7), (5, ChordQuality.sus4)],
    [(4, ChordQuality.maj9), (5, ChordQuality.maj), (6, ChordQuality.min9), (1, ChordQuality.maj7)]
  ]),
  ("UK Garage_Chill", [
    [(1, ChordQuality.maj7), (6, ChordQuality.min7), (2, ChordQuality.min7), (5, ChordQuality.dom7)],
    [(4, ChordQuality.maj7), (3, ChordQuality.min7), (6, ChordQuality.min7), (5, ChordQuality.dom7)],
    [(1, ChordQuality.maj9), (4, ChordQuality.maj7), (5, ChordQuality.dom7), (6, ChordQuality.min7)]
  ]),
  ("UK Garage_Uplifting", [
    [(1, ChordQuality.maj7), (5, ChordQuality.dom7), (6, ChordQuality.min7), (4, ChordQuality.maj7)],
    [(4, ChordQuality.maj7), (1, ChordQuality.maj7), (5, ChordQuality.dom7), (6, ChordQuality.min7)],
    [(1, ChordQuality.maj), (4, ChordQuality.maj7), (6, ChordQuality.min7), (5, ChordQuality.dom7)]
  ]),
  ("UK Garage_Energetic", [
    [(6, ChordQuality.min7), (5, ChordQuality.dom7), (4, ChordQuality.maj7), (1, ChordQuality.maj7)],
    [(1, ChordQuality.maj7), (4, ChordQuality.maj7), (5, ChordQuality.dom7), (5, ChordQuality.dom7)],
    [(2, ChordQuality.min7), (5, ChordQuality.dom7), (1, ChordQuality.maj), (6, ChordQuality.min7)]
  ]),
  ("UK Garage_Dreamy", [
    [(1, ChordQuality.maj9), (6, ChordQuality.min9), (4, ChordQuality.maj9), (5, ChordQuality.dom9)],
    [(4, ChordQuality.maj9), (5, ChordQuality.add9), (6, ChordQuality.min7), (1, ChordQuality.maj9)]
  ]),
  ("Future Bass_Uplifting", [
    [(6, ChordQuality.min), (4, ChordQuality.maj), (1, ChordQuality.maj), (5, ChordQuality.maj)],
    [(1, ChordQuality.maj), (5, ChordQuality.maj), (6, ChordQuality.min), (4, ChordQuality.maj)],
    [(4, ChordQuality.maj), (5, ChordQuality.maj), (6, ChordQuality.min), (1, ChordQuality.maj)]
  ]),
  ("Future Bass_Energetic", [
    [(6, ChordQuality.min7), (4, ChordQuality.maj7), (1, ChordQuality.maj7), (5, ChordQuality.dom7)],
    [(1, ChordQuality.add9), (5, ChordQuality.add9), (6, ChordQuality.min), (4, ChordQuality.add9)],
    [(4, ChordQuality.maj), (1, ChordQuality.maj), (5, ChordQuality.sus4), (5, ChordQuality.maj)]
  ]),
  ("Future Bass_Dreamy", [
    [(1, ChordQuality.maj7), (4, ChordQuality.maj9), (6, ChordQuality.min7), (5, ChordQuality.add9)],
    [(6, ChordQuality.min9), (4, ChordQuality.maj9), (1, ChordQuality.maj9), (5, ChordQuality.add9)],
    [(4, ChordQuality.add9), (5, ChordQuality.add9), (6, ChordQuality.min7), (1, ChordQuality.maj7)]
  ]),
  ("Future Bass_Melancholic", [
    [(6, ChordQuality.min7), (3, ChordQuality.min7), (4, ChordQuality.maj7), (1, ChordQuality.maj7)],
    [(1, ChordQuality.min7), (6, ChordQuality.maj7), (4, ChordQuality.maj7), (5, ChordQuality.dom7)],
    [(6, ChordQuality.min), (4, ChordQuality.maj), (5, ChordQuality.maj), (3, ChordQuality.min)]
  ]),
  ("Drum & Bass_Chill", [
    [(1, ChordQuality.min7), (4, ChordQuality.min7), (6, ChordQuality.maj7), (5, ChordQuality.dom7)],
    [(6, ChordQuality.min7), (4, ChordQuality.maj7), (1, ChordQuality.maj7), (5, ChordQuality.dom7)],
    [(2, ChordQuality.min7), (5, ChordQuality.dom7), (1, ChordQuality.maj7), (6, ChordQuality.min7)]
  ]),
  ("Drum & Bass_Dark", [
    [(1, ChordQuality.min), (6, ChordQuality.maj), (7, ChordQuality.maj), (5, ChordQuality.maj)],
    [(1, ChordQuality.min7), (1, ChordQuality.min7), (4, ChordQuality.min7), (5, ChordQuality.dom7)],
    [(6, ChordQuality.min), (7, ChordQuality.dim), (1, ChordQuality.min), (5, ChordQuality.dom7)]
  ]),
  ("Drum & Bass_Uplifting", [
    [(1, ChordQuality.maj7), (5, ChordQuality.dom7), (6, ChordQuality.min7), (4, ChordQuality.maj7)],
    [(4, ChordQuality.maj7), (5, ChordQuality.maj), (6, ChordQuality.min7), (1, ChordQuality.maj7)]
  ]),
  ("Drum & Bass_Energetic", [
    [(6, ChordQuality.min), (4, ChordQuality.maj), (1, ChordQuality.maj), (5, ChordQuality.maj)],
    [(1, ChordQuality.min), (4, ChordQuality.min), (5, ChordQuality.maj), (1, ChordQuality.min)]
  ]),
  ("Trance_Uplifting", [
    [(6, ChordQuality.min), (4, ChordQuality.maj), (1, ChordQuality.maj), (5, ChordQuality.maj)],
    [(1, ChordQuality.min), (6, ChordQuality.maj), (3, ChordQuality.maj), (7, ChordQuality.maj)],
    [(4, ChordQuality.maj), (5, ChordQuality.maj), (6, ChordQuality.min), (1, ChordQuality.maj)]
  ]),
  ("Trance_Energetic", [
    [(1, ChordQuality.min), (5, ChordQuality.maj), (6, ChordQuality.maj), (4, ChordQuality.maj)],
    [(6, ChordQuality.min), (5, ChordQuality.maj), (4, ChordQuality.maj), (1, ChordQuality.min)]
  ]),
  ("Trance_Dreamy", [
    [(1, ChordQuality.maj7), (5, ChordQuality.sus4), (6, ChordQuality.min7), (4, ChordQuality.maj7)],
    [(4, ChordQuality.add9), (5, ChordQuality.add9), (6, ChordQuality.min), (1, ChordQuality.maj7)]
  ]),
  ("Trance_Melancholic", [
    [(6, ChordQuality.min), (3, ChordQuality.min), (4, ChordQuality.maj), (1, ChordQuality.maj)],
    [(1, ChordQuality.min), (6, ChordQuality.maj), (4, ChordQuality.maj), (5, ChordQuality.maj)]
  ]),
  ("Techno_Dark", [
    [(1, ChordQuality.min), (1, ChordQuality.min), (4, ChordQuality.min), (4, ChordQuality.min)],
    [(1, ChordQuality.min7), (6, ChordQuality.maj), (1, ChordQuality.min7), (1, ChordQuality.min7)],
    [(5, ChordQuality.min), (1, ChordQuality.min), (5, ChordQuality.min), (1, ChordQuality.min)]
  ]),
  ("Techno_Energetic", [
    [(1, ChordQuality.min), (4, ChordQuality.min), (1, ChordQuality.min), (5, ChordQuality.min)],
    [(6, ChordQuality.min), (6, ChordQuality.min), (4, ChordQuality.maj), (4, ChordQuality.maj)]
  ]),
  ("Techno_Chill", [
    [(1, ChordQuality.min7), (4, ChordQuality.min7), (1, ChordQuality.min7), (1, ChordQuality.min7)],
    [(2, ChordQuality.min7), (5, ChordQuality.dom7), (1, ChordQuality.min7), (1, ChordQuality.min7)]
  ]),
  ("Dubstep_Dark", [
    [(1, ChordQuality.min), (6, ChordQuality.maj), (7, ChordQuality.maj), (5, ChordQuality.maj)],
    [(1, ChordQuality.min), (1, ChordQuality.min), (6, ChordQuality.maj), (6, ChordQuality.maj)],
    [(6, ChordQuality.min), (7, ChordQuality.dim), (1, ChordQuality.min), (5, ChordQuality.maj)]
  ]),
  ("Dubstep_Energetic", [
    [(6, ChordQuality.min), (4, ChordQuality.maj), (1, ChordQuality.maj), (5, ChordQuality.maj)],
    [(1, ChordQuality.min), (5, ChordQuality.maj), (6, ChordQuality.maj), (4, ChordQuality.maj)]
  ]),
  ("Dubstep_Melancholic", [
    [(6, ChordQuality.min7), (4, ChordQuality.maj7), (1, ChordQuality.maj7), (5, ChordQuality.dom7)],
    [(1, ChordQuality.min7), (6, ChordQuality.maj7), (4, ChordQuality.maj7), (5, ChordQuality.dom7)]
  ]),
  ("Ambient_Dreamy", [
    [(1, ChordQuality.maj7), (4, ChordQuality.maj9), (6, ChordQuality.min9), (5, ChordQuality.sus4)],
    [(4, ChordQuality.add9), (1, ChordQuality.maj7), (4, ChordQuality.add9), (1, ChordQuality.maj7)],
    [(1, ChordQuality.maj9), (1, ChordQuality.maj9), (4, ChordQuality.maj9), (4, ChordQuality.maj9)]
  ]),
  ("Ambient_Chill", [
    [(1, ChordQuality.maj7), (6, ChordQuality.min7), (4, ChordQuality.maj7), (4, ChordQuality.maj7)],
    [(2, ChordQuality.min9), (5, ChordQuality.add9), (1, ChordQuality.maj9), (1, ChordQuality.maj9)]
  ]),
  ("Ambient_Melancholic", [
    [(6, ChordQuality.min9), (4, ChordQuality.maj9), (1, ChordQuality.maj9), (5, ChordQuality.sus4)],
    [(1, ChordQuality.min9), (4, ChordQuality.min7), (6, ChordQuality.maj7), (5, ChordQuality.sus4)]
  ]),
  ("Bossa Nova_Chill", [
    [(1, ChordQuality.maj7), (2, ChordQuality.min7), (3, ChordQuality.min7), (6, ChordQuality.min7)],
    [(2, ChordQuality.min7), (5, ChordQuality.dom7), (1, ChordQuality.maj7), (6, ChordQuality.min7)],
    [(1, ChordQuality.maj9), (2, ChordQuality.min7), (5, ChordQuality.dom7), (1, ChordQuality.maj7)]
  ]),
  ("Bossa Nova_Dreamy", [
    [(1, ChordQuality.maj9), (4, ChordQuality.maj7), (3, ChordQuality.min7), (6, ChordQuality.min9)],
    [(2, ChordQuality.m7b5), (5, ChordQuality.dom7), (1, ChordQuality.maj9), (4, ChordQuality.maj7)]
  ]),
  ("Bossa Nova_Uplifting", [
    [(1, ChordQuality.maj7), (5, ChordQuality.dom7), (6, ChordQuality.min7), (4, ChordQuality.maj7)],
    [(1, ChordQuality.maj7), (4, ChordQuality.maj7), (3, ChordQuality.min7), (6, ChordQuality.min7)]
  ]),
  ("Bossa Nova_Melancholic", [
    [(1, ChordQuality.min7), (4, ChordQuality.min7), (5, ChordQuality.dom7), (1, ChordQuality.min7)],
    [(2, ChordQuality.m7b5), (5, ChordQuality.dom7), (1, ChordQuality.min7), (6, ChordQuality.maj7)]
  ]),
  ("Reggae_Chill", [
    [(1, ChordQuality.maj), (5, ChordQuality.maj), (1, ChordQuality.maj), (5, ChordQuality.maj)],
    [(1, ChordQuality.maj), (4, ChordQuality.maj), (1, ChordQuality.maj), (5, ChordQuality.maj)],
    [(1, ChordQuality.maj7), (4, ChordQuality.maj7), (1, ChordQuality.maj7), (5, ChordQuality.dom7)]
  ]),
  ("Reggae_Uplifting", [
    [(1, ChordQuality.maj), (4, ChordQuality.maj), (5, ChordQuality.maj), (1, ChordQuality.maj)],
    [(6, ChordQuality.min), (5, ChordQuality.maj), (4, ChordQuality.maj), (1, ChordQuality.maj)]
  ]),
  ("Reggae_Melancholic", [
    [(1, ChordQuality.min), (4, ChordQuality.min), (5, ChordQuality.maj), (1, ChordQuality.min)],
    [(6, ChordQuality.min), (4, ChordQuality.maj), (1, ChordQuality.min), (5, ChordQuality.maj)]
  ]),
  ("Country_Uplifting", [
    [(1, ChordQuality.maj), (4, ChordQuality.maj), (1, ChordQuality.maj), (5, ChordQuality.maj)],
    [(1, ChordQuality.maj), (5, ChordQuality.maj), (6, ChordQuality.min), (4, ChordQuality.maj)],
    [(1, ChordQuality.maj), (4, ChordQuality.maj), (5, ChordQuality.maj), (1, ChordQuality.maj)]
  ]),
  ("Country_Melancholic", [
    [(1, ChordQuality.maj), (6, ChordQuality.min), (4, ChordQuality.maj), (5, ChordQuality.maj)],
    [(6, ChordQuality.min), (4, ChordQuality.maj), (1, ChordQuality.maj), (5, ChordQuality.maj)]
  ]),
  ("Country_Chill", [
    [(1, ChordQuality.maj7), (4, ChordQuality.maj), (5, ChordQuality.dom7), (1, ChordQuality.maj)],
    [(1, ChordQuality.add9), (4, ChordQuality.add9), (5, ChordQuality.sus4), (1, ChordQuality.add9)]
  ]),
  ("Blues_Chill", [
    [(1, ChordQuality.dom7), (4, ChordQuality.dom7), (1, ChordQuality.dom7), (5, ChordQuality.dom7)],
    [(1, ChordQuality.dom7), (1, ChordQuality.dom7), (4, ChordQuality.dom7), (1, ChordQuality.dom7)],
    [(1, ChordQuality.dom9), (4, ChordQuality.dom7), (1, ChordQuality.dom7), (5, ChordQuality.dom7)]
  ]),
  ("Blues_Dark", [
    [(1, ChordQuality.min7), (4, ChordQuality.min7), (1, ChordQuality.min7), (5, ChordQuality.dom7)],
    [(1, ChordQuality.min7), (4, ChordQuality.min7), (5, ChordQuality.dom7), (1, ChordQuality.min7)]
  ]),
  ("Blues_Melancholic", [
    [(1, ChordQuality.dom7), (4, ChordQuality.dom7), (5, ChordQuality.dom7), (4, ChordQuality.dom7)],
    [(6, ChordQuality.min7), (2, ChordQuality.min7), (5, ChordQuality.dom7), (1, ChordQuality.dom7)]
  ]),
  ("Blues_Uplifting", [
    [(1, ChordQuality.dom7), (4, ChordQuality.dom7), (1, ChordQuality.dom7), (5, ChordQuality.dom7)],
    [(1, ChordQuality.maj7), (4, ChordQuality.dom7), (1, ChordQuality.maj7), (5, ChordQuality.dom7)]
  ]),
  ("Gospel_Uplifting", [
    [(4, ChordQuality.maj7), (5, ChordQuality.dom7), (3, ChordQuality.min7), (6, ChordQuality.min7)],
    [(1, ChordQuality.maj), (4, ChordQuality.maj), (1, ChordQuality.maj), (5, ChordQuality.maj)],
    [(4, ChordQuality.maj7), (3, ChordQuality.min7), (2, ChordQuality.min7), (5, ChordQuality.dom7)]
  ]),
  ("Gospel_Melancholic", [
    [(1, ChordQuality.maj7), (6, ChordQuality.min7), (4, ChordQuality.maj7), (5, ChordQuality.dom7)],
    [(2, ChordQuality.min7), (5, ChordQuality.dom7), (1, ChordQuality.maj7), (6, ChordQuality.min7)]
  ]),
  ("Gospel_Energetic", [
    [(1, ChordQuality.maj), (1, ChordQuality.maj), (4, ChordQuality.maj), (1, ChordQuality.maj)],
    [(4, ChordQuality.maj), (5, ChordQuality.maj), (1, ChordQuality.maj), (1, ChordQuality.maj)]
  ]),
  ("Gospel_Dreamy", [
    [(1, ChordQuality.maj9), (4, ChordQuality.maj9), (5, ChordQuality.dom9), (1, ChordQuality.maj9)],
    [(4, ChordQuality.maj7), (3, ChordQuality.min7), (6, ChordQuality.min7), (2, ChordQuality.min7)]
  ]),
  ("Metal_Dark", [
    [(1, ChordQuality.min), (6, ChordQuality.maj), (7, ChordQuality.maj), (1, ChordQuality.min)],
    [(1, ChordQuality.min), (2, ChordQuality.dim), (5, ChordQuality.maj), (1, ChordQuality.min)],
    [(1, ChordQuality.min), (4, ChordQuality.min), (5, ChordQuality.min), (1, ChordQuality.min)]
  ]),
  ("Metal_Energetic", [
    [(1, ChordQuality.min), (5, ChordQuality.maj), (6, ChordQuality.maj), (4, ChordQuality.maj)],
    [(1, ChordQuality.min), (6, ChordQuality.maj), (3, ChordQuality.maj), (7, ChordQuality.maj)]
  ]),
  ("Metal_Melancholic", [
    [(6, ChordQuality.min), (4, ChordQuality.maj), (1, ChordQuality.maj), (5, ChordQuality.maj)],
    [(1, ChordQuality.min), (4, ChordQuality.min), (6, ChordQuality.maj), (5, ChordQuality.maj)]
  ]),
  ("Latin_Energetic", [
    [(1, ChordQuality.maj), (4, ChordQuality.maj), (5, ChordQuality.dom7), (1, ChordQuality.maj)],
    [(2, ChordQuality.min7), (5, ChordQuality.dom7), (1, ChordQuality.maj7), (1, ChordQuality.maj7)],
    [(1, ChordQuality.maj), (6, ChordQuality.min), (2, ChordQuality.min7), (5, ChordQuality.dom7)]
  ]),
  ("Latin_Chill", [
    [(1, ChordQuality.maj7), (2, ChordQuality.min7), (5, ChordQuality.dom7), (1, ChordQuality.maj7)],
    [(6, ChordQuality.min7), (2, ChordQuality.min7), (5, ChordQuality.dom7), (1, ChordQuality.maj7)]
  ]),
  ("Latin_Uplifting", [
    [(1, ChordQuality.maj), (4, ChordQuality.maj), (1, ChordQuality.maj), (5, ChordQuality.dom7)],
    [(4, ChordQuality.maj), (5, ChordQuality.dom7), (1, ChordQuality.maj), (6, ChordQuality.min)]
  ]),
  ("Latin_Melancholic", [
    [(1, ChordQuality.min7), (4, ChordQuality.min7), (5, ChordQuality.dom7), (1, ChordQuality.min7)],
    [(6, ChordQuality.min7), (5, ChordQuality.dom7), (4, ChordQuality.maj7), (1, ChordQuality.min7)]
  ]),
  ("City Pop_Chill", [
    [(1, ChordQuality.maj7), (3, ChordQuality.min7), (6, ChordQuality.min7), (2, ChordQuality.min7)],
    [(4, ChordQuality.maj7), (3, ChordQuality.min7), (2, ChordQuality.min7), (5, ChordQuality.dom7)],
    [(1, ChordQuality.maj9), (6, ChordQuality.min7), (2, ChordQuality.min7), (5, ChordQuality.dom9)]
  ]),
  ("City Pop_Uplifting", [
    [(1, ChordQuality.maj7), (5, ChordQuality.dom7), (6, ChordQuality.min7), (4, ChordQuality.maj7)],
    [(4, ChordQuality.maj7), (5, ChordQuality.dom7), (3, ChordQuality.min7), (6, ChordQuality.min7)],
    [(1, ChordQuality.maj7), (2, ChordQuality.min7), (3, ChordQuality.min7), (4, ChordQuality.maj7)]
  ]),
  ("City Pop_Dreamy", [
    [(1, ChordQuality.maj9), (4, ChordQuality.maj7), (3, ChordQuality.min7), (6, ChordQuality.min9)],
    [(2, ChordQuality.min9), (5, ChordQuality.dom9), (1, ChordQuality.maj9), (6, ChordQuality.min7)],
    [(4, ChordQuality.add9), (5, ChordQuality.add9), (6, ChordQuality.min7), (1, ChordQuality.maj7)]
  ]),
  ("City Pop_Melancholic", [
    [(6, ChordQuality.min7), (5, ChordQuality.dom7), (4, ChordQuality.maj7), (3, ChordQuality.min7)],
    [(1, ChordQuality.maj7), (6, ChordQuality.min7), (4, ChordQuality.maj7), (5, ChordQuality.sus4)],
    [(2, ChordQuality.min7), (5, ChordQuality.dom7), (1, ChordQuality.maj7), (4, ChordQuality.maj7)]
  ])
]
/-- JS `PROGRESSION_TEMPLATES[key]` in the extended generator. -/
def lookupTemplates (key : String) : Option (List ProgressionTemplate) :=
  (PROGRESSION_TEMPLATES.find? (fun e => e.1 = key)).map (fun e => e.2)

/-- `adjustForMinorKey` of the extended generator (identical table). -/
def adjustForMinorKey (degree : Nat) (quality : ChordQuality) (key : Key) :
    Nat × ChordQuality :=
  if key.scale = .minor then
    if degree = 1 ∧ quality = .maj then (1, ChordQuality.min)
    else if degree = 1 ∧ quality = .maj7 then (1, ChordQuality.min7)
    else if degree = 1 ∧ quality = .maj9 then (1, ChordQuality.min9)
    else if degree = 4 ∧ quality = .maj then (4, ChordQuality.min)
    else if degree = 4 ∧ quality = .maj7 then (4, ChordQuality.min7)
    else if degree = 5 ∧ quality = .maj then (5, ChordQuality.min)
    else if degree = 6 ∧ quality = .min then (6, ChordQuality.maj)
    else if degree = 6 ∧ quality = .min7 then (6, ChordQuality.maj7)
    else (degree, quality)
  else (degree, quality)

/-- `ENRICHMENT_CHANCE` of the extended generator (all 25 genres). -/
def ENRICHMENT_CHANCE : Genre → Rat
  | .neoSoul => 6/10
  | .jazz => 5/10
  | .loFi => 4/10
  | .rnb => 3/10
  | .hipHop => 2/10
  | .funk => 3/10
  | .rock => 0
  | .pop => 1/10
  | .edm => 1/10
  | .house => 2/10
  | .ukGarage => 4/10
  | .futureBass => 3/10
  | .drumAndBass => 3/10
  | .trance => 1/10
  | .techno => 0
  | .dubstep => 1/10
  | .ambient => 5/10
  | .bossaNova => 6/10
  | .reggae => 1/10
  | .country => 0
  | .blues => 2/10
  | .gospel => 4/10
  | .metal => 0
  | .latin => 2/10
  | .cityPop => 5/10

/-- The `upgrades` map of the extended `enrichChord`. -/
def upgrades : ChordQuality → List ChordQuality
  | .maj7 => [.maj9, .maj13]
  | .min7 => [.min9, .min11]
  | .dom7 => [.dom9, .dom13]
  | .maj9 => [.maj13]
  | .min9 => [.min11]
  | .dom9 => [.dom13]
  | _ => []

/-- `enrichChord` of the extended generator. -/
def enrichChord (quality : ChordQuality) (genre : Genre) (s : RandStream)
    (c : Nat) : ChordQuality × Nat :=
  let chance := ENRICHMENT_CHANCE genre
  if s c > chance then (quality, c + 1)
  else
    let options := upgrades quality
    if options.length > 0 then (pickRandomD options (s (c + 1)), c + 2)
    else (quality, c + 1)

/-- The genres voiced openly. -/
def openVoicingGenres : List Genre := [.jazz, .neoSoul, .loFi]

/-- `generateModalInterchangeChord`: replaces a chord by a uniformly
drawn borrowable chord of the key's mode, revoiced from the previous
chord, keeping the old chord's duration and tagging the borrow. -/
def generateModalInterchangeChord (oldChord : Chord) (prevChord : Option Chord)
    (key : Key) (genre : Genre) (s : RandStream) (c : Nat) : Chord × Nat :=
  let borrowed := MusicTheory.getRandomBorrowableChord key (s c)
  let useOpenVoicing := openVoicingGenres.contains genre
  let notes := MusicTheory.getVoicedChordNotes borrowed.root borrowed.quality
    (prevChord.map (fun p => p.notes)) MusicTheory.defaultRange useOpenVoicing
  ({ id := generateId (s (c + 1)), root := borrowed.root,
     quality := borrowed.quality, notes := notes,
     displayName := MusicTheory.getChordDisplayName borrowed.root borrowed.quality,
     durationBeats := oldChord.durationBeats,
     borrowedFrom := some borrowed.borrowedFrom,
     borrowedDegree := some borrowed.degree }, c + 2)

/-- `EXTENSION_TEMPLATES`: the 5 fixed extension templates. -/
def EXTENSION_TEMPLATES : List ProgressionTemplate :=
  [[(4, ChordQuality.maj7), (5, ChordQuality.dom7), (3, ChordQuality.min7), (6, ChordQuality.min7)],
   [(2, ChordQuality.min7), (5, ChordQuality.dom9), (1, ChordQuality.maj9), (4, ChordQuality.maj7)],
   [(6, ChordQuality.min7), (2, ChordQuality.min7), (5, ChordQuality.dom7), (1, ChordQuality.maj7)],
   [(4, ChordQuality.maj7), (4, ChordQuality.min7), (1, ChordQuality.maj7), (5, ChordQuality.dom7)],
   [(5, ChordQuality.sus4), (5, ChordQuality.dom7), (1, ChordQuality.maj7), (6, ChordQuality.min7)]]

/-- The chord-building loop of `generateExtensionChords` (`n` counts the
remaining chords to add, `i` the template cursor). -/
def extLoop (key : Key) (genre : Option Genre) (useOpenVoicing : Bool)
    (template : ProgressionTemplate) (durationNew : Rat) (s : RandStream) :
    Nat → Nat → Option (List Int) → Nat → List Chord × Nat
  | 0, _, _, c => ([], c)
  | n + 1, i, prevNotes, c =>
    let dq := template.getD (i % template.length) (1, ChordQuality.maj)
    let adjusted := adjustForMinorKey dq.1 dq.2 key
    let eq : ChordQuality × Nat :=
      match genre with
      | some g => enrichChord adjusted.2 g s c
      | none => (adjusted.2, c)
    let root := MusicTheory.getScaleDegreeNote key adjusted.1
    let notes := MusicTheory.getVoicedChordNotes root eq.1 prevNotes
      MusicTheory.defaultRange useOpenVoicing
    let chord : Chord :=
      { id := generateId (s eq.2), root := root, quality := eq.1, notes := notes,
        displayName := MusicTheory.getChordDisplayName root eq.1,
        durationBeats := durationNew }
    let res := extLoop key genre useOpenVoicing template durationNew s n (i + 1)
      (some notes) (eq.2 + 1)
    (chord :: res.1, res.2)

/-- `generateExtensionChords`: caps the progression at 8 chords, adds up
to 4 realized from a genre/mood template (or a fixed extension template),
continuing voice leading from the last existing chord. -/
def generateExtensionChords (existingChords : List Chord) (key : Key)
    (genre : Option Genre) (mood : Option Mood) (s : RandStream) (c : Nat) :
    List Chord × Nat :=
  if existingChords.length ≥ 8 then ([], c)
  else
    let chordsToAdd := min 4 (8 - existingChords.length)
    let lastChord := existingChords.getLast?
    let templateKey :=
      genreStr (genre.getD .pop) ++ "_" ++ moodStr (mood.getD .chill)
    let genreTemplates := lookupTemplates templateKey
    let tc : ProgressionTemplate × Nat :=
      match genreTemplates with
      | some ts =>
        if ts.length > 0 then (ts.getD (randIdx (s c) ts.length) [], c + 1)
        else (EXTENSION_TEMPLATES.getD (randIdx (s c) EXTENSION_TEMPLATES.length) [],
          c + 1)
      | none =>
        (EXTENSION_TEMPLATES.getD (randIdx (s c) EXTENSION_TEMPLATES.length) [], c + 1)
    let useOpenVoicing :=
      match genre with
      | some g => openVoicingGenres.contains g
      | none => false
    let durationNew : Rat :=
      match lastChord with
      | some lc => if lc.durationBeats = 0 then 4 else lc.durationBeats
      | none => 4
    extLoop key genre useOpenVoicing tc.1 durationNew s chordsToAdd 0
      (lastChord.map (fun lc => lc.notes)) tc.2

end ChordGenX

namespace Reducer

/-! Embedding of the `useChordProgression.ts` reducer cases the claims
are about (`SWAP_CHORD`, `INSERT_CHORD`, `UPDATE_CHORD_DURATION`).
Indices are embedded as `Nat`; the claims only address in-range indices. -/

/-- The local `findProgression` helper of the reducer. -/
def findProgression (st : AppState) (id : String) : Option ChordProgression :=
  if st.mainProgression.id = id then some st.mainProgression
  else st.bridgeProgressions.find? (fun p => p.id = id)

/-- JS `arr.splice(i, 1)` for an in-range index. -/
def spliceRemove (l : List Chord) (i : Nat) : List Chord :=
  l.take i ++ l.drop (i + 1)

/-- JS `arr.splice(i, 0, c)` for an in-range index. -/
def spliceInsert (l : List Chord) (i : Nat) (c : Chord) : List Chord :=
  l.take i ++ [c] ++ l.drop i

/-- Overwrite the chords of the bridge progression found by id
(`newBridges[idx] = updateProgression(newBridges[idx], chords)`). -/
def setBridgeChords (bridges : List ChordProgression) (pid : String)
    (chords : List Chord) : List ChordProgression :=
  match bridges.findIdx? (fun p => p.id = pid) with
  | some idx =>
    bridges.set idx ({ bridges.getD idx default with chords := chords })
  | none => bridges

/-- The `SWAP_CHORD` reducer case: within one progression the source
chord is removed and re-inserted at the target index; across
progressions the two chords are exchanged. -/
def applySwapChord (st : AppState) (sourceProgId targetProgId : String)
    (sourceIdx targetIdx : Nat) : AppState :=
  match findProgression st sourceProgId, findProgression st targetProgId with
  | some sourceProg, some targetProg =>
    let sourceChord := sourceProg.chords.getD sourceIdx default
    let sourceChords :=
      if sourceProgId = targetProgId then
        spliceInsert (spliceRemove sourceProg.chords sourceIdx) targetIdx sourceChord
      else sourceProg.chords.set sourceIdx (targetProg.chords.getD targetIdx default)
    let targetChords := targetProg.chords.set targetIdx sourceChord
    let afterSource : ChordProgression × List ChordProgression :=
      if st.mainProgression.id = sourceProgId then
        ({ st.mainProgression with chords := sourceChords }, st.bridgeProgressions)
      else (st.mainProgression,
        setBridgeChords st.bridgeProgressions sourceProgId sourceChords)
    let afterTarget : ChordProgression × List ChordProgression :=
      if sourceProgId ≠ targetProgId then
        if st.mainProgression.id = targetProgId then
          ({ st.mainProgression with chords := targetChords }, afterSource.2)
        else (afterSource.1, setBridgeChords afterSource.2 targetProgId targetChords)
      else afterSource
    { st with mainProgression := afterTarget.1, bridgeProgressions := afterTarget.2 }
  | _, _ => st

/-- The `INSERT_CHORD` reducer case: halve the preceding chord's duration
(floor 1 beat) and splice the new chord in at the index. -/
def applyInsertChord (st : AppState) (progressionId : String) (insertIndex : Nat)
    (newChord : Chord) : AppState :=
  match findProgression st progressionId with
  | none => st
  | some prog =>
    if insertIndex = 0 ∨ insertIndex > prog.chords.length then st
    else
      let prevC := prog.chords.getD (insertIndex - 1) default
      let halved := prog.chords.set (insertIndex - 1)
        ({ prevC with durationBeats := max 1 (prevC.durationBeats / 2) })
      let newChords := spliceInsert halved insertIndex newChord
      if st.mainProgression.id = progressionId then
        { st with mainProgression := { st.mainProgression with chords := newChords } }
      else
        { st with bridgeProgressions := st.bridgeProgressions.map (fun p =>
            if p.id = progressionId then { p with chords := newChords } else p) }

/-- The `UPDATE_CHORD_DURATION` reducer case: clamp to `[0.5, 8]` and
store on the addressed chord. -/
def applyUpdateChordDuration (st : AppState) (progressionId : String)
    (chordIndex : Nat) (durationBeats : Rat) : AppState :=
  let clampedDuration := max (1/2 : Rat) (min 8 durationBeats)
  if st.mainProgression.id = progressionId then
    let newChords := st.mainProgression.chords.set chordIndex
      ({ st.mainProgression.chords.getD chordIndex default with
         durationBeats := clampedDuration })
    { st with mainProgression := { st.mainProgression with chords := newChords } }
  else
    { st with bridgeProgressions := st.bridgeProgressions.map (fun p =>
        if p.id = progressionId then
          let pc := p.chords.getD chordIndex default
          let pc2 := { pc with durationBeats := clampedDuration }
          { p with chords := p.chords.set chordIndex pc2 }
        else p) }

end Reducer

namespace Examples

/-! Concrete inputs used to instantiate the verified properties. -/

/-- A constantly-zero random stream. -/
def sZero : RandStream := fun _ => 0

/-- A random stream constantly returning `9/10`. -/
def sNine : RandStream := fun _ => 9/10

/-- A concrete A-minor chord (root A, closed voicing). -/
def amC : Chord :=
  { id := "c-am", root := .A, quality := .min,
    notes := MusicTheory.getVoicedChordNotes .A .min none MusicTheory.defaultRange false,
    displayName := MusicTheory.getChordDisplayName .A .min, durationBeats := 4 }

/-- A concrete Fmaj7 chord. -/
def fmaj7C : Chord :=
  { id := "c-fmaj7", root := .F, quality := .maj7,
    notes := MusicTheory.getVoicedChordNotes .F .maj7 none MusicTheory.defaultRange false,
    displayName := MusicTheory.getChordDisplayName .F .maj7, durationBeats := 4 }

/-- A concrete G7 chord. -/
def g7C : Chord :=
  { id := "c-g7", root := .G, quality := .dom7,
    notes := MusicTheory.getVoicedChordNotes .G .dom7 none MusicTheory.defaultRange false,
    displayName := MusicTheory.getChordDisplayName .G .dom7, durationBeats := 4 }

/-- A concrete Em7 chord. -/
def em7C : Chord :=
  { id := "c-em7", root := .E, quality := .min7,
    notes := MusicTheory.getVoicedChordNotes .E .min7 none MusicTheory.defaultRange false,
    displayName := MusicTheory.getChordDisplayName .E .min7, durationBeats := 4 }

/-- A concrete C-major chord. -/
def cmajC : Chord :=
  { id := "c-cmaj", root := .C, quality := .maj,
    notes := MusicTheory.getVoicedChordNotes .C .maj none MusicTheory.defaultRange false,
    displayName := MusicTheory.getChordDisplayName .C .maj, durationBeats := 4 }

/-- A concrete G-major chord. -/
def gmajC : Chord :=
  { id := "c-gmaj", root := .G, quality := .maj,
    notes := MusicTheory.getVoicedChordNotes .G .maj none MusicTheory.defaultRange false,
    displayName := MusicTheory.getChordDisplayName .G .maj, durationBeats := 4 }

/-- A concrete C#-major chord (used for an out-of-scale midpoint). -/
def csmajC : Chord :=
  { id := "c-csmaj", root := .Cs, quality := .maj,
    notes := MusicTheory.getVoicedChordNotes .Cs .maj none MusicTheory.defaultRange false,
    displayName := MusicTheory.getChordDisplayName .Cs .maj, durationBeats := 4 }

/-- The sustain event that the C-major chord contributes at beat 0. -/
def susEv : ChordPat.ChordNote :=
  { midiNote := 60, startBeat := 0, durationBeats := 4, velocity := 80 }

/-- The Am-Fmaj7-G7-Em7 progression of the swap scenario. -/
def swapSettings : AppSettings :=
  { key := ⟨.C, .major⟩, tempo := 90, genre := .loFi, mood := .chill,
    soundType := .piano }

def swapMain : ChordProgression :=
  { id := "main", chords := [amC, fmaj7C, g7C, em7C], label := "Main" }

def swapBridge : ChordProgression :=
  { id := "b1", chords := [cmajC, gmajC], label := "Bridge 1" }

def swapState : AppState :=
  { settings := swapSettings, mainProgression := swapMain,
    bridgeProgressions := [swapBridge] }

end Examples

end ChordGenModel

/-! ## Proof development -/

namespace ChordGenModel

namespace MusicTheory

/-! ### Lemmas about the voicing engine -/

theorem insertSorted_perm (le : α → α → Bool) (x : α) :
    ∀ (l : List α), (insertSorted le x l).Perm (x :: l)
  | [] => List.Perm.refl _
  | y :: ys => by
    simp only [insertSorted]
    by_cases h : le x y = true
    · simp [h]
    · simp only [h, if_false]
      exact ((insertSorted_perm le x ys).cons y).trans (List.Perm.swap x y ys)

theorem stableSort_perm (le : α → α → Bool) :
    ∀ (l : List α), (stableSort le l).Perm l
  | [] => List.Perm.refl _
  | x :: xs =>
    (insertSorted_perm le x (stableSort le xs)).trans
      ((stableSort_perm le xs).cons x)

theorem stableSort_length (le : α → α → Bool) (l : List α) :
    (stableSort le l).length = l.length :=
  (stableSort_perm le l).length_eq

theorem insertSorted_pairwise (le : α → α → Bool)
    (htotal : ∀ a b, le a b = true ∨ le b a = true)
    (htrans : ∀ a b c, le a b = true → le b c = true → le a c = true)
    (x : α) : ∀ (l : List α), l.Pairwise (fun a b => le a b = true) →
      (insertSorted le x l).Pairwise (fun a b => le a b = true)
  | [], _ => by simp [insertSorted]
  | y :: ys, h => by
    simp only [insertSorted]
    by_cases hxy : le x y = true
    · simp only [hxy, if_true]
      refine List.Pairwise.cons ?_ h
      intro b hb
      rcases List.mem_cons.mp hb with rfl | hb
      · exact hxy
      · exact htrans x y b hxy ((List.pairwise_cons.mp h).1 b hb)
    · simp only [hxy, if_false]
      have hyx : le y x = true := (htotal x y).resolve_left hxy
      refine List.Pairwise.cons ?_
        (insertSorted_pairwise le htotal htrans x ys (List.pairwise_cons.mp h).2)
      intro b hb
      rcases List.mem_cons.mp ((insertSorted_perm le x ys).mem_iff.mp hb) with rfl | hb
      · exact hyx
      · exact (List.pairwise_cons.mp h).1 b hb

theorem stableSort_pairwise (le : α → α → Bool)
    (htotal : ∀ a b, le a b = true ∨ le b a = true)
    (htrans : ∀ a b c, le a b = true → le b c = true → le a c = true) :
    ∀ (l : List α), (stableSort le l).Pairwise (fun a b => le a b = true)
  | [] => List.Pairwise.nil
  | x :: xs =>
    insertSorted_pairwise le htotal htrans x (stableSort le xs)
      (stableSort_pairwise le htotal htrans xs)

theorem sortAsc_length (l : List Int) : (sortAsc l).length = l.length :=
  stableSort_length _ l

theorem sortAsc_sorted (l : List Int) : (sortAsc l).Sorted (· ≤ ·) := by
  have h := stableSort_pairwise (fun a b : Int => decide (a ≤ b))
    (fun a b => by
      rcases le_total a b with h | h
      · exact Or.inl (decide_eq_true h)
      · exact Or.inr (decide_eq_true h))
    (fun a b c hab hbc =>
      decide_eq_true (le_trans (of_decide_eq_true hab) (of_decide_eq_true hbc))) l
  exact h.imp (fun hab => of_decide_eq_true hab)

theorem closeLoop_length (c : Rat) :
    ∀ (ls : List (List Int)) (acc : List Int), (∀ l ∈ ls, l ≠ []) →
      (closeLoop c ls acc).length = acc.length + ls.length
  | [], acc, _ => by simp [closeLoop]
  | opts :: rest, acc, h => by
    have hopts : ¬(opts.isEmpty = true) := by
      simpa [List.isEmpty_iff] using h opts (by simp)
    have hrest : ∀ l ∈ rest, l ≠ [] := fun l hl => h l (by simp [hl])
    simp only [closeLoop, if_neg hopts]
    rw [closeLoop_length c rest _ hrest]
    simp
    omega

theorem getCloseVoicing_length (ls : List (List Int)) (r : TargetRange)
    (h : ∀ l ∈ ls, l ≠ []) : (getCloseVoicing ls r).length = ls.length := by
  simp [getCloseVoicing, sortAsc_length, closeLoop_length _ ls [] h]

theorem pickBest_foldl_mem (target : Int) (S : List Int) :
    ∀ (xs : List Int) (acc : Int × Int), acc.1 ∈ S → (∀ o ∈ xs, o ∈ S) →
      (List.foldl
        (fun (acc : Int × Int) option =>
          if intAbs (option - target) < acc.2 then (option, intAbs (option - target))
          else acc)
        acc xs).1 ∈ S
  | [], _, hacc, _ => hacc
  | x :: xs, acc, hacc, hxs => by
    simp only [List.foldl_cons]
    refine pickBest_foldl_mem target S xs _ ?_ (fun o ho => hxs o (by simp [ho]))
    by_cases hlt : intAbs (x - target) < acc.2
    · simpa [hlt] using hxs x (by simp)
    · simpa [hlt] using hacc

theorem pickBest_mem (target : Int) (l : List Int) (h : l ≠ []) :
    pickBest target l ∈ l := by
  match l with
  | x :: xs =>
    exact pickBest_foldl_mem target (x :: xs) (x :: xs) (x, intAbs (x - target))
      (by simp) (fun o ho => ho)

theorem smoothedLoop_length (sp : List Int) :
    ∀ (ls : List (List Int)) (i : Nat) (used usedPrev : List Int),
      (∀ l ∈ ls, l ≠ []) → DisjointLists ls →
      (∀ l ∈ ls, ∀ x ∈ l, x ∉ used) →
      (smoothedLoop sp ls i used usedPrev).length = ls.length
  | [], _, _, _, _, _, _ => rfl
  | opts :: rest, i, used, usedPrev, hne, hdisj, hused => by
    have hfilter : opts.filter (fun n => !used.contains n) = opts :=
      List.filter_eq_self.mpr (fun a ha => by
        simpa using hused opts (by simp) a ha)
    have hopts : ¬(opts.isEmpty = true) := by
      simpa [List.isEmpty_iff] using hne opts (by simp)
    have hrestne : ∀ l ∈ rest, l ≠ [] := fun l hl => hne l (by simp [hl])
    have hused' : ∀ (t : Int), ∀ l ∈ rest, ∀ x ∈ l, x ∉ pickBest t opts :: used := by
      intro t l hl x hx
      have hx_not_used : x ∉ used := hused l (by simp [hl]) x hx
      have hdisj_head : ∀ y ∈ opts, y ∉ l :=
        (List.pairwise_cons.mp hdisj).1 l hl
      have hpb : pickBest t opts ∉ l :=
        hdisj_head _ (pickBest_mem t opts (hne opts (by simp)))
      simp only [List.mem_cons]
      rintro (rfl | hmem)
      · exact hpb hx
      · exact hx_not_used hmem
    simp only [smoothedLoop, hfilter, if_neg hopts, List.length_cons]
    rw [smoothedLoop_length sp rest (i + 1) _ _ hrestne
      (List.pairwise_cons.mp hdisj).2 (hused' _)]

theorem getSmoothedVoicing_length (ls : List (List Int)) (prev : List Int)
    (hne : ∀ l ∈ ls, l ≠ []) (hdisj : DisjointLists ls) :
    (getSmoothedVoicing ls prev).length = ls.length := by
  simp [getSmoothedVoicing, sortAsc_length]
  rw [smoothedLoop_length _ ls 0 [] [] hne hdisj (by simp)]

theorem disjointB_sound : ∀ ls, disjointB ls = true → DisjointLists ls
  | [], _ => List.Pairwise.nil
  | l :: rest, h => by
    simp only [disjointB, Bool.and_eq_true, List.all_eq_true, decide_eq_true_iff] at h
    exact List.pairwise_cons.mpr
      ⟨fun l2 hl2 x hx => h.1 l2 hl2 x hx, disjointB_sound rest h.2⟩

theorem candsOK_sound (ls : List (List Int)) (h : candsOK ls = true) :
    (∀ l ∈ ls, l ≠ []) ∧ DisjointLists ls := by
  simp only [candsOK, Bool.and_eq_true, List.all_eq_true, decide_eq_true_iff] at h
  exact ⟨h.1, disjointB_sound ls h.2⟩

theorem closedCands_ok :
    ∀ (root : NoteName) (q : ChordQuality), candsOK (closedCands root q) = true := by
  decide

theorem upperCands_ok :
    ∀ (root : NoteName) (q : ChordQuality), candsOK (upperCands root q) = true := by
  decide

theorem filter_nonzero_length :
    ∀ (q : ChordQuality),
      ((CHORD_INTERVALS q).filter (fun i => i ≠ 0)).length + 1 =
        (CHORD_INTERVALS q).length := by
  decide

theorem drop2_length (l : List Int) : (drop2 l).length = l.length := by
  simp [drop2, sortAsc_length]

/-- The note-count invariant at the default target range: in all four
regimes (closed / smoothed × closed / open) the voicing has exactly one
pitch per semitone interval of the quality. -/
theorem getVoicedChordNotes_default_length (root : NoteName) (q : ChordQuality)
    (prev : Option (List Int)) (useOpen : Bool) :
    (getVoicedChordNotes root q prev defaultRange useOpen).length =
      (CHORD_INTERVALS q).length := by
  obtain ⟨hne, hdisj⟩ := candsOK_sound _ (closedCands_ok root q)
  obtain ⟨hneU, hdisjU⟩ := candsOK_sound _ (upperCands_ok root q)
  have hClose : (getCloseVoicing (closedCands root q) defaultRange).length =
      (CHORD_INTERVALS q).length := by
    rw [getCloseVoicing_length _ _ hne]; simp [closedCands]
  have hCloseU : (getCloseVoicing (upperCands root q) defaultRange).length + 1 =
      (CHORD_INTERVALS q).length := by
    rw [getCloseVoicing_length _ _ hneU]
    simpa [upperCands] using filter_nonzero_length q
  cases useOpen with
  | false =>
    cases prev with
    | none => simpa [getVoicedChordNotes, closedCands] using hClose
    | some p =>
      by_cases hp : p.length = 0
      · simpa [getVoicedChordNotes, closedCands, hp] using hClose
      · have hSm : (getSmoothedVoicing (closedCands root q) p).length =
            (CHORD_INTERVALS q).length := by
          rw [getSmoothedVoicing_length _ _ hne hdisj]; simp [closedCands]
        simpa [getVoicedChordNotes, closedCands, hp] using hSm
  | true =>
    have hUpper : ∀ (upper : List Int),
        upper.length + 1 = (CHORD_INTERVALS q).length →
        (sortAsc ((NOTE_TO_MIDI root - 12) ::
          (if upper.length ≥ 3 then drop2 upper else upper))).length =
          (CHORD_INTERVALS q).length := by
      intro upper hlen
      by_cases h3 : upper.length ≥ 3 <;>
        simp [h3, sortAsc_length, drop2_length, hlen]
    cases prev with
    | none =>
      simpa [getVoicedChordNotes, upperCands] using
        hUpper _ hCloseU
    | some p =>
      by_cases hp : p.length > 1
      · have hSmU : ∀ (pv : List Int),
            (getSmoothedVoicing (upperCands root q) pv).length + 1 =
              (CHORD_INTERVALS q).length := by
          intro pv
          rw [getSmoothedVoicing_length _ _ hneU hdisjU]
          simpa [upperCands] using filter_nonzero_length q
        by_cases hfu : (p.filter (fun n => 48 < n)).length > 0
        · simpa [getVoicedChordNotes, upperCands, hp, hfu] using
            hUpper _ (hSmU (p.filter (fun n => 48 < n)))
        · simpa [getVoicedChordNotes, upperCands, hp, hfu] using
            hUpper _ (hSmU p)
      · simpa [getVoicedChordNotes, upperCands, hp] using
          hUpper _ hCloseU

/-- Sortedness of the voicing output: every branch of
`getVoicedChordNotes` returns through an ascending sort. -/
theorem getVoicedChordNotes_sorted (root : NoteName) (q : ChordQuality)
    (prev : Option (List Int)) (r : TargetRange) (useOpen : Bool) :
    (getVoicedChordNotes root q prev r useOpen).Sorted (· ≤ ·) := by
  cases useOpen with
  | false =>
    cases prev with
    | none => exact sortAsc_sorted _
    | some p =>
      by_cases hp : p.length = 0 <;>
        simp [getVoicedChordNotes, getCloseVoicing, getSmoothedVoicing, hp,
          sortAsc_sorted]
  | true => exact sortAsc_sorted _


end MusicTheory

/-! ### Claim C2: same-progression swap -/

/-- **C2 (counterexample).**  On the progression `[Am, Fmaj7, G7, Em7]`,
the same-progression swap with source index 1 and target index 3 does not
produce the order `[Am, Em7, G7, Fmaj7]` stated by the claim: the splice
reorder moves Fmaj7 to the end instead. -/
theorem swapChord_scenario_not_element_swap :
    (Reducer.applySwapChord Examples.swapState "main" "main" 1 3).mainProgression.chords ≠
      [Examples.amC, Examples.em7C, Examples.g7C, Examples.fmaj7C] := by
  with_unfolding_all decide

/-- **C2 (amended).**  The same-progression swap with source index 1 and
target index 3 on `[Am, Fmaj7, G7, Em7]` removes the chord at index 1 and
re-inserts it at index 3, yielding `[Am, G7, Em7, Fmaj7]`; it is a pure
reorder (a permutation of the original chords, each with unchanged
content), and the other progressions are untouched. -/
theorem swapChord_scenario_reorders :
    (Reducer.applySwapChord Examples.swapState "main" "main" 1 3).mainProgression.chords =
      [Examples.amC, Examples.g7C, Examples.em7C, Examples.fmaj7C] ∧
    (Reducer.applySwapChord Examples.swapState "main" "main" 1 3).mainProgression.chords.Perm
      Examples.swapState.mainProgression.chords ∧
    (Reducer.applySwapChord Examples.swapState "main" "main" 1 3).bridgeProgressions =
      Examples.swapState.bridgeProgressions ∧
    (Reducer.applySwapChord Examples.swapState "main" "main" 1 3).settings =
      Examples.swapState.settings := by
  refine ⟨by with_unfolding_all decide, ?_, by with_unfolding_all decide,
    by with_unfolding_all decide⟩
  with_unfolding_all decide

/-! ### Claim C7: duration clamp and frame -/

/-- `List.getD` through a `map`, at an in-range index. -/
theorem getD_map_of_lt {α β : Type} [Inhabited α] [Inhabited β] (f : α → β)
    (l : List α) (j : Nat) (h : j < l.length) :
    (l.map f).getD j default = f (l.getD j default) := by
  simp [List.getD_eq_getElem?_getD, List.getElem?_eq_getElem h]

/-- **C7.**  For every raw duration value, the `UPDATE_CHORD_DURATION`
reducer stores a clamped duration in `[0.5, 8]` on the addressed chord and
never rejects; every other field of that chord, every other chord, every
other progression and the settings are unchanged (both when the addressed
progression is the main one and when it is a bridge). -/
theorem updateChordDuration_clamps_and_frames (st : AppState) (pid : String) (i : Nat) (d : Rat) :
    (1/2 ≤ max (1/2 : Rat) (min 8 d) ∧ max (1/2 : Rat) (min 8 d) ≤ 8) ∧
    (st.mainProgression.id = pid →
      (Reducer.applyUpdateChordDuration st pid i d).settings = st.settings ∧
      (Reducer.applyUpdateChordDuration st pid i d).bridgeProgressions =
        st.bridgeProgressions ∧
      (Reducer.applyUpdateChordDuration st pid i d).mainProgression.id =
        st.mainProgression.id ∧
      (Reducer.applyUpdateChordDuration st pid i d).mainProgression.label =
        st.mainProgression.label ∧
      (Reducer.applyUpdateChordDuration st pid i d).mainProgression.chords.length =
        st.mainProgression.chords.length ∧
      (i < st.mainProgression.chords.length →
        (Reducer.applyUpdateChordDuration st pid i d).mainProgression.chords[i]? =
          some { st.mainProgression.chords.getD i default with
                 durationBeats := max (1/2) (min 8 d) }) ∧
      (∀ j, j ≠ i →
        (Reducer.applyUpdateChordDuration st pid i d).mainProgression.chords[j]? =
          st.mainProgression.chords[j]?)) ∧
    (st.mainProgression.id ≠ pid →
      (Reducer.applyUpdateChordDuration st pid i d).settings = st.settings ∧
      (Reducer.applyUpdateChordDuration st pid i d).mainProgression =
        st.mainProgression ∧
      (Reducer.applyUpdateChordDuration st pid i d).bridgeProgressions.length =
        st.bridgeProgressions.length ∧
      (∀ j, (st.bridgeProgressions.getD j default).id ≠ pid →
        (Reducer.applyUpdateChordDuration st pid i d).bridgeProgressions[j]? =
          st.bridgeProgressions[j]?) ∧
      (∀ j, j < st.bridgeProgressions.length →
        (st.bridgeProgressions.getD j default).id = pid →
        i < (st.bridgeProgressions.getD j default).chords.length →
        ((Reducer.applyUpdateChordDuration st pid i d).bridgeProgressions.getD j
            default).chords[i]? =
          some { (st.bridgeProgressions.getD j default).chords.getD i default with
                 durationBeats := max (1/2) (min 8 d) } ∧
        (∀ k, k ≠ i →
          ((Reducer.applyUpdateChordDuration st pid i d).bridgeProgressions.getD j
              default).chords[k]? =
            (st.bridgeProgressions.getD j default).chords[k]?))) := by
  refine ⟨⟨le_max_left _ _, max_le (by norm_num) (min_le_left _ _)⟩, ?_, ?_⟩
  · intro hmain
    refine ⟨?_, ?_, ?_, ?_, ?_, ?_, ?_⟩
    · simp [Reducer.applyUpdateChordDuration, hmain]
    · simp [Reducer.applyUpdateChordDuration, hmain]
    · simp [Reducer.applyUpdateChordDuration, hmain]
    · simp [Reducer.applyUpdateChordDuration, hmain]
    · simp [Reducer.applyUpdateChordDuration, hmain]
    · intro hi
      simp [Reducer.applyUpdateChordDuration, hmain, List.getElem?_set_self hi]
    · intro j hj
      simp [Reducer.applyUpdateChordDuration, hmain,
        List.getElem?_set_ne (fun h : i = j => hj h.symm)]
  · intro hmain
    refine ⟨?_, ?_, ?_, ?_, ?_⟩
    · simp [Reducer.applyUpdateChordDuration, hmain]
    · simp [Reducer.applyUpdateChordDuration, hmain]
    · simp [Reducer.applyUpdateChordDuration, hmain]
    · intro j hj
      simp only [Reducer.applyUpdateChordDuration, if_neg hmain, List.getElem?_map]
      rcases hjl : st.bridgeProgressions[j]? with _ | p
      · rfl
      · have hpd : st.bridgeProgressions.getD j default = p := by simp [hjl]
        rw [hpd] at hj
        simp [if_neg hj]
    · intro j hjlen hj hi
      have hi' : i < (st.bridgeProgressions[j]?.getD default).chords.length := by
        simpa using hi
      constructor
      · simp only [Reducer.applyUpdateChordDuration, if_neg hmain]
        rw [getD_map_of_lt _ _ _ hjlen, if_pos hj]
        simp [List.getElem?_set_self hi']
      · intro k hk
        simp only [Reducer.applyUpdateChordDuration, if_neg hmain]
        rw [getD_map_of_lt _ _ _ hjlen, if_pos hj]
        simp [List.getElem?_set_ne (fun h : i = k => hk h.symm)]

/-- **C7 (witness).**  The clamp and frame facts instantiated on the
concrete swap-scenario state with a negative raw input. -/
theorem updateChordDuration_clamps_and_frames_witness :
    (Reducer.applyUpdateChordDuration Examples.swapState "main" 1
      (-5)).mainProgression.chords[1]? =
      some { Examples.swapState.mainProgression.chords.getD 1 default with
             durationBeats := max (1/2) (min 8 (-5)) } := by
  exact ((updateChordDuration_clamps_and_frames Examples.swapState "main" 1
    (-5)).2.1 (by decide)).2.2.2.2.2.1 (by decide)


/-! ### Claim C6: template lookup fallback chain -/

/-- Every entry of the template bank carries at least one template. -/
theorem progression_templates_entries_nonempty :
    ∀ e ∈ ChordGen.PROGRESSION_TEMPLATES, e.2 ≠ [] := by
  decide

/-- **C6.**  `getTemplates` is a deterministic fallback chain with no
failure path: an exact `"Genre_Mood"` hit is returned as-is; otherwise the
union of the genre's template lists across moods when nonempty; otherwise
the fixed default bank; the result is never empty.  In particular
`getTemplates Rock Dreamy` is exactly the concatenation of the three
`Rock_*` template lists, not the default bank. -/
theorem getTemplates_fallback_chain :
    (∀ (g : Genre) (m : Mood), ChordGen.getTemplates g m ≠ []) ∧
    (∀ (g : Genre) (m : Mood) (ts : List ChordGen.ProgressionTemplate),
      ChordGen.lookupTemplates (genreStr g ++ "_" ++ moodStr m) = some ts →
      ChordGen.getTemplates g m = ts) ∧
    (∀ (g : Genre) (m : Mood),
      ChordGen.lookupTemplates (genreStr g ++ "_" ++ moodStr m) = none →
      ChordGen.genreUnion g ≠ [] →
      ChordGen.getTemplates g m = ChordGen.genreUnion g) ∧
    (∀ (g : Genre) (m : Mood),
      ChordGen.lookupTemplates (genreStr g ++ "_" ++ moodStr m) = none →
      ChordGen.genreUnion g = [] →
      ChordGen.getTemplates g m = ChordGen.DEFAULT_PROGRESSIONS) ∧
    ChordGen.getTemplates .rock .dreamy =
      (ChordGen.lookupTemplates "Rock_Energetic").getD [] ++
        (ChordGen.lookupTemplates "Rock_Dark").getD [] ++
        (ChordGen.lookupTemplates "Rock_Uplifting").getD [] ∧
    ChordGen.getTemplates .rock .dreamy ≠ ChordGen.DEFAULT_PROGRESSIONS := by
  refine ⟨?_, ?_, ?_, ?_, by decide, by decide⟩
  · intro g m
    unfold ChordGen.getTemplates
    cases h : ChordGen.lookupTemplates (genreStr g ++ "_" ++ moodStr m) with
    | some ts =>
      simp only [h]
      obtain ⟨e, he, he2⟩ : ∃ e, List.find? (fun e => e.1 ==
          (genreStr g ++ "_" ++ moodStr m)) ChordGen.PROGRESSION_TEMPLATES = some e ∧
          e.2 = ts := by
        simpa [ChordGen.lookupTemplates] using h
      have hmem := List.mem_of_find?_eq_some he
      rw [← he2]
      exact progression_templates_entries_nonempty e hmem
    | none =>
      simp only [h]
      by_cases hg : (ChordGen.genreUnion g).length > 0
      · simpa [hg] using List.length_pos.mp hg
      · simp only [hg, if_false]
        decide
  · intro g m ts h
    unfold ChordGen.getTemplates
    simp [h]
  · intro g m h hne
    unfold ChordGen.getTemplates
    simp only [h]
    rw [if_pos (List.length_pos.mpr hne)]
  · intro g m h hz
    unfold ChordGen.getTemplates
    simp only [h, hz]
    simp

/-- **C6 (witness).**  The exact-hit case of the chain, instantiated: the
`"Lo-Fi_Chill"` entry is returned as-is. -/
theorem getTemplates_fallback_chain_witness :
    ChordGen.getTemplates .loFi .chill =
      [[(2, ChordQuality.min7), (5, ChordQuality.dom7), (1, ChordQuality.maj7),
        (6, ChordQuality.min7)],
       [(1, ChordQuality.maj9), (6, ChordQuality.min9), (2, ChordQuality.min7),
        (5, ChordQuality.dom9)],
       [(4, ChordQuality.maj7), (3, ChordQuality.min7), (2, ChordQuality.min7),
        (1, ChordQuality.maj9)]] :=
  getTemplates_fallback_chain.2.1 .loFi .chill _ (by decide)

/-! ### Claim C4: extension cap at 8 chords -/

/-- The extension loop emits exactly as many chords as it is asked for. -/
theorem extLoop_length (key : Key) (genre : Option Genre) (useOpen : Bool)
    (template : ChordGenX.ProgressionTemplate) (durationNew : Rat)
    (s : RandStream) :
    ∀ (n i : Nat) (prev : Option (List Int)) (c : Nat),
      (ChordGenX.extLoop key genre useOpen template durationNew s n i prev c).1.length = n
  | 0, _, _, _ => rfl
  | n + 1, i, prev, c => by
    simp only [ChordGenX.extLoop, List.length_cons]
    rw [extLoop_length key genre useOpen template durationNew s n]

/-- **C4.**  `generateExtensionChords` returns no chord when the
progression already holds 8 or more, and exactly `min 4 (8 - length)` new
chords otherwise; hence repeated application never pushes a progression
beyond 8 chords. -/
theorem generateExtensionChords_caps (existing : List Chord) (key : Key)
    (genre : Option Genre) (mood : Option Mood) (s : RandStream) (c : Nat) :
    ((ChordGenX.generateExtensionChords existing key genre mood s c).1.length =
      if existing.length ≥ 8 then 0 else min 4 (8 - existing.length)) ∧
    (existing.length ≤ 8 →
      existing.length +
        (ChordGenX.generateExtensionChords existing key genre mood s c).1.length ≤ 8) := by
  have hlen : (ChordGenX.generateExtensionChords existing key genre mood s c).1.length =
      if existing.length ≥ 8 then 0 else min 4 (8 - existing.length) := by
    unfold ChordGenX.generateExtensionChords
    by_cases h8 : existing.length ≥ 8
    · simp [h8]
    · simp only [h8, if_false]
      rw [extLoop_length]
  refine ⟨hlen, fun hle => ?_⟩
  rw [hlen]
  by_cases h8 : existing.length ≥ 8 <;> simp [h8] <;> omega

/-- **C4 (witness).**  Starting from 7 chords the extension adds exactly
one, reaching and never exceeding the cap of 8. -/
theorem generateExtensionChords_caps_witness :
    ((ChordGenX.generateExtensionChords
        (List.replicate 7 Examples.cmajC) ⟨.C, .major⟩ none none Examples.sZero 0).1.length =
      if (List.replicate 7 Examples.cmajC).length ≥ 8 then 0
      else min 4 (8 - (List.replicate 7 Examples.cmajC).length)) ∧
    (List.replicate 7 Examples.cmajC).length +
      (ChordGenX.generateExtensionChords
        (List.replicate 7 Examples.cmajC) ⟨.C, .major⟩ none none Examples.sZero 0).1.length ≤ 8 :=
  ⟨(generateExtensionChords_caps (List.replicate 7 Examples.cmajC) ⟨.C, .major⟩
      none none Examples.sZero 0).1,
   (generateExtensionChords_caps (List.replicate 7 Examples.cmajC) ⟨.C, .major⟩
      none none Examples.sZero 0).2 (by decide)⟩

/-! ### Claim C5: modal-interchange tagging and root offsets -/

/-- Index bound for `Math.floor(r * n)` with a unit-interval draw. -/
theorem randIdx_lt (r : Rat) (n : Nat) (h0 : 0 ≤ r) (h1 : r < 1) (hn : 0 < n) :
    randIdx r n < n := by
  have hfl : (⌊r * n⌋ : Int) < (n : Int) := by
    apply Int.floor_lt.mpr
    calc r * n < 1 * n := by
          apply mul_lt_mul_of_pos_right h1
          exact_mod_cast hn
      _ = (n : Rat) := one_mul _
  have hnn : (0 : Int) ≤ ⌊r * n⌋ := by
    apply Int.floor_nonneg.mpr
    positivity
  unfold randIdx
  omega

/-- A uniform pick from a nonempty list is a member of the list. -/
theorem pickRandomD_mem {α : Type} [Inhabited α] (l : List α) (r : Rat)
    (h0 : 0 ≤ r) (h1 : r < 1) (hne : l ≠ []) : pickRandomD l r ∈ l := by
  unfold pickRandomD
  have hlt := randIdx_lt r l.length h0 h1 (List.length_pos.mpr hne)
  rw [List.getD_eq_getElem?_getD, List.getElem?_eq_getElem hlt]
  exact List.getElem_mem hlt

/-- The degree labels of both borrow tables are nonempty strings. -/
theorem borrowable_degree_labels_nonempty :
    (∀ e ∈ MusicTheory.MAJOR_TO_MINOR_BORROWABLE, e.2.2 ≠ "") ∧
    (∀ e ∈ MusicTheory.MINOR_TO_MAJOR_BORROWABLE, e.2.2 ≠ "") := by
  decide

/-- In C major the borrow-table offsets land on D#, G#, A#, F, D. -/
theorem borrowable_roots_cmajor :
    ∀ e ∈ MusicTheory.MAJOR_TO_MINOR_BORROWABLE,
      MusicTheory.NOTE_NAMES.getD ((MusicTheory.noteIdx .C + e.1) % 12) .C ∈
        [NoteName.Ds, .Gs, .As, .F, .D] := by
  decide

/-- **C5.**  Every chord produced by `generateModalInterchangeChord` is
tagged with the key mode's `borrowedFrom` and a nonempty `borrowedDegree`,
preserves the replaced chord's duration, and its root sits at one of
exactly the fixed semitone offsets of the mode's borrow table; in C major
the root is one of D#, G#, A#, F, D. -/
theorem generateModalInterchangeChord_props (oldChord : Chord)
    (prevChord : Option Chord) (key : Key) (genre : Genre) (s : RandStream)
    (c : Nat) (hs : 0 ≤ s c ∧ s c < 1) :
    ((ChordGenX.generateModalInterchangeChord oldChord prevChord key genre s c).1.borrowedFrom =
      some (if key.scale = .major then .parallelMinor else .parallelMajor)) ∧
    (∃ deg,
      (ChordGenX.generateModalInterchangeChord oldChord prevChord key genre s c).1.borrowedDegree =
        some deg ∧ deg ≠ "") ∧
    (ChordGenX.generateModalInterchangeChord oldChord prevChord key genre s c).1.durationBeats =
      oldChord.durationBeats ∧
    (∃ e ∈ (if key.scale = .major then MusicTheory.MAJOR_TO_MINOR_BORROWABLE
            else MusicTheory.MINOR_TO_MAJOR_BORROWABLE),
      (ChordGenX.generateModalInterchangeChord oldChord prevChord key genre s c).1.root =
        MusicTheory.NOTE_NAMES.getD ((MusicTheory.noteIdx key.root + e.1) % 12) .C ∧
      (ChordGenX.generateModalInterchangeChord oldChord prevChord key genre s c).1.quality =
        e.2.1 ∧
      (ChordGenX.generateModalInterchangeChord oldChord prevChord key genre s c).1.borrowedDegree =
        some e.2.2) ∧
    (key = ⟨.C, .major⟩ →
      (ChordGenX.generateModalInterchangeChord oldChord prevChord key genre s c).1.root ∈
        [NoteName.Ds, .Gs, .As, .F, .D]) := by
  have hne : MusicTheory.getBorrowableChords key ≠ [] := by
    unfold MusicTheory.getBorrowableChords
    cases hsc : key.scale <;> simp [hsc, MusicTheory.MAJOR_TO_MINOR_BORROWABLE,
      MusicTheory.MINOR_TO_MAJOR_BORROWABLE]
  have hmem : MusicTheory.getRandomBorrowableChord key (s c) ∈
      MusicTheory.getBorrowableChords key := by
    unfold MusicTheory.getRandomBorrowableChord
    exact pickRandomD_mem _ _ hs.1 hs.2 hne
  simp only [MusicTheory.getBorrowableChords] at hmem
  rcases List.mem_map.mp hmem with ⟨e, hetab, heq⟩
  have hemap := heq.symm
  have hdeg : e.2.2 ≠ "" := by
    by_cases hsc : key.scale = .major
    · rw [if_pos hsc] at hetab
      exact borrowable_degree_labels_nonempty.1 e hetab
    · rw [if_neg hsc] at hetab
      exact borrowable_degree_labels_nonempty.2 e hetab
  refine ⟨?_, ⟨e.2.2, ?_, hdeg⟩, ?_, ⟨e, hetab, ?_, ?_, ?_⟩, ?_⟩
  · simp [ChordGenX.generateModalInterchangeChord, hemap]
  · simp [ChordGenX.generateModalInterchangeChord, hemap]
  · simp [ChordGenX.generateModalInterchangeChord]
  · simp [ChordGenX.generateModalInterchangeChord, hemap]
  · simp [ChordGenX.generateModalInterchangeChord, hemap]
  · simp [ChordGenX.generateModalInterchangeChord, hemap]
  · intro hkey
    subst hkey
    simp only [ChordGenX.generateModalInterchangeChord, hemap]
    simp only [if_pos rfl] at hetab
    simpa using borrowable_roots_cmajor e hetab

/-- **C5 (witness).**  The tagging facts instantiated at a concrete chord
in C major with the constant-zero stream. -/
theorem generateModalInterchangeChord_props_witness :
    (ChordGenX.generateModalInterchangeChord Examples.cmajC none ⟨.C, .major⟩
        .rock Examples.sZero 0).1.borrowedFrom =
      some (if (⟨.C, .major⟩ : Key).scale = .major then .parallelMinor
        else .parallelMajor) ∧
    (ChordGenX.generateModalInterchangeChord Examples.cmajC none ⟨.C, .major⟩
        .rock Examples.sZero 0).1.root ∈ [NoteName.Ds, .Gs, .As, .F, .D] :=
  ⟨(generateModalInterchangeChord_props Examples.cmajC none ⟨.C, .major⟩ .rock
      Examples.sZero 0 ⟨le_refl 0, by norm_num [Examples.sZero]⟩).1,
   (generateModalInterchangeChord_props Examples.cmajC none ⟨.C, .major⟩ .rock
      Examples.sZero 0 ⟨le_refl 0, by norm_num [Examples.sZero]⟩).2.2.2.2 rfl⟩



/-! ### Claim C8: unknown-pattern fallbacks -/

/-- **C8 (counterexample).**  For a pattern value outside the handled
cases the bassline engine does not fall back to the root-only pattern: it
emits nothing, while the root-only pattern emits a note. -/
theorem bassline_unknown_pattern_not_root_only :
    Bassline.generateBassline Examples.cmajC "bogus" 0 ≠
      Bassline.generateBassline Examples.cmajC "root-only" 0 := by
  with_unfolding_all decide

/-- **C8 (amended).**  For every pattern value outside the handled cases,
each engine is total and falls back: the chord-pattern engine produces the
sustain pattern, the bassline engine produces no notes (the `none`
pattern), and the melody engine produces no notes. -/
theorem pattern_engines_total_fallbacks (chord : Chord) (key : Key)
    (startBeat : Rat) (s : RandStream) (c : Nat) (pattern : String)
    (hc : pattern ∉ ["sustain", "arpeggio-up", "arpeggio-down", "staccato", "strum"])
    (hb : pattern ∉ ["none", "root-only", "root-fifth", "walking", "syncopated",
      "octave"])
    (hm : pattern ∉ ["none", "simple", "smooth", "rhythmic"]) :
    (ChordPat.generateChordWithPattern chord pattern startBeat s c).1 =
      ChordPat.generateSustainPattern (MusicTheory.sortAsc chord.notes) startBeat
        chord.durationBeats ∧
    Bassline.generateBassline chord pattern startBeat = [] ∧
    (Melody.generateMelody chord key pattern startBeat s c).1 = [] := by
  obtain ⟨hc1, hc2, hc3, hc4, hc5⟩ :
      pattern ≠ "sustain" ∧ pattern ≠ "arpeggio-up" ∧ pattern ≠ "arpeggio-down" ∧
      pattern ≠ "staccato" ∧ pattern ≠ "strum" := by simpa using hc
  obtain ⟨hb1, hb2, hb3, hb4, hb5, hb6⟩ :
      pattern ≠ "none" ∧ pattern ≠ "root-only" ∧ pattern ≠ "root-fifth" ∧
      pattern ≠ "walking" ∧ pattern ≠ "syncopated" ∧ pattern ≠ "octave" := by
    simpa using hb
  obtain ⟨hm1, hm2, hm3, hm4⟩ :
      pattern ≠ "none" ∧ pattern ≠ "simple" ∧ pattern ≠ "smooth" ∧
      pattern ≠ "rhythmic" := by simpa using hm
  refine ⟨?_, ?_, ?_⟩
  · simp [ChordPat.generateChordWithPattern, hc1, hc2, hc3, hc4, hc5]
  · simp [Bassline.generateBassline, hb1, hb2, hb3, hb4, hb5, hb6]
  · simp [Melody.generateMelody, hm1, hm2, hm3, hm4]

/-- **C8 (witness).**  The fallbacks instantiated at the unknown pattern
value `"bogus"`. -/
theorem pattern_engines_total_fallbacks_witness :
    (ChordPat.generateChordWithPattern Examples.cmajC "bogus" 0 Examples.sZero 0).1 =
      ChordPat.generateSustainPattern (MusicTheory.sortAsc Examples.cmajC.notes) 0
        Examples.cmajC.durationBeats ∧
    Bassline.generateBassline Examples.cmajC "bogus" 0 = [] ∧
    (Melody.generateMelody Examples.cmajC ⟨.C, .major⟩ "bogus" 0 Examples.sZero 0).1 =
      [] :=
  pattern_engines_total_fallbacks Examples.cmajC ⟨.C, .major⟩ 0 Examples.sZero 0
    "bogus" (by decide) (by decide) (by decide)

/-! ### Claim C9: determinism under a fixed random source -/

/-- **C9.**  `generateProgressionFromTemplate` is deterministic under a
fixed random source: two calls with identical arguments whose random
streams agree on every draw produce chords with identical note lists. -/
theorem generateProgressionFromTemplate_deterministic (key : Key)
    (template : ChordGen.ProgressionTemplate) (label : String)
    (genre : Option Genre) (s1 s2 : RandStream) (c : Nat)
    (h : ∀ i, s1 i = s2 i) :
    ((ChordGen.generateProgressionFromTemplate key template label genre
        s1 c).1.chords.map (fun ch => ch.notes)) =
      ((ChordGen.generateProgressionFromTemplate key template label genre
        s2 c).1.chords.map (fun ch => ch.notes)) := by
  have hs : s1 = s2 := funext h
  rw [hs]

/-- **C9 (witness).**  Determinism instantiated on a concrete template in
C major with the constant-zero stream. -/
theorem generateProgressionFromTemplate_deterministic_witness :
    ((ChordGen.generateProgressionFromTemplate ⟨.C, .major⟩
        [(2, ChordQuality.min7), (5, ChordQuality.dom7), (1, ChordQuality.maj7)]
        "Main" (some .loFi) Examples.sZero 0).1.chords.map (fun ch => ch.notes)) =
      ((ChordGen.generateProgressionFromTemplate ⟨.C, .major⟩
        [(2, ChordQuality.min7), (5, ChordQuality.dom7), (1, ChordQuality.maj7)]
        "Main" (some .loFi) Examples.sZero 0).1.chords.map (fun ch => ch.notes)) :=
  generateProgressionFromTemplate_deterministic ⟨.C, .major⟩
    [(2, ChordQuality.min7), (5, ChordQuality.dom7), (1, ChordQuality.maj7)]
    "Main" (some .loFi) Examples.sZero Examples.sZero 0 (fun _ => rfl)



/-! ### Claim C1: voicing sortedness and note count -/

/-- **C1 (counterexample).**  The note-count invariant does not hold for
every target range: with the degenerate range `{low: 0, high: 0}` no
candidate pitch survives the range filter and the closed voicing of a C
major triad is empty instead of 3 notes. -/
theorem voicing_length_fails_for_degenerate_range :
    (MusicTheory.getVoicedChordNotes .C .maj none ⟨0, 0⟩ false).length ≠
      (MusicTheory.CHORD_INTERVALS .maj).length := by
  with_unfolding_all decide

/-- **C1 (amended).**  For every root, quality, previous-voicing context
(including none) and both voicing modes, the pitch list returned by
`getVoicedChordNotes` is sorted ascending for every target range, and at
the default target range its length equals the number of semitone
intervals of the quality (root and each non-root tone contributing exactly
one pitch) — in particular the closed voicing with no previous context
returns exactly `CHORD_INTERVALS q |>.length` pitches. -/
theorem getVoicedChordNotes_sorted_and_counted (root : NoteName)
    (q : ChordQuality) (prev : Option (List Int)) (useOpen : Bool) :
    (∀ (r : MusicTheory.TargetRange),
      (MusicTheory.getVoicedChordNotes root q prev r useOpen).Sorted (· ≤ ·)) ∧
    (MusicTheory.getVoicedChordNotes root q prev MusicTheory.defaultRange
        useOpen).length = (MusicTheory.CHORD_INTERVALS q).length :=
  ⟨fun r => MusicTheory.getVoicedChordNotes_sorted root q prev r useOpen,
   MusicTheory.getVoicedChordNotes_default_length root q prev useOpen⟩



/-! ### Claim C3: passing-chord insertion -/

/-- `splice(i, 0, c)` grows the list by one. -/
theorem spliceInsert_length (l : List Chord) (i : Nat) (c : Chord) (h : i ≤ l.length) :
    (Reducer.spliceInsert l i c).length = l.length + 1 := by
  simp [Reducer.spliceInsert]
  omega

/-- Elements before the insertion point are untouched by the splice. -/
theorem spliceInsert_getD_lt (l : List Chord) (i j : Nat) (c : Chord)
    (hj : j < i) (hi : i ≤ l.length) :
    (Reducer.spliceInsert l i c).getD j default = l.getD j default := by
  unfold Reducer.spliceInsert
  have hjt : j < (l.take i).length := by simp; omega
  have hjt2 : j < ((l.take i) ++ [c]).length := by simp; omega
  rw [List.getD_eq_getElem?_getD, List.append_assoc,
    List.getElem?_append_left (by simpa using hjt), List.getElem?_take]
  simp [hj]

/-- The spliced-in chord sits at the insertion index. -/
theorem spliceInsert_getD_self (l : List Chord) (i : Nat) (c : Chord)
    (hi : i ≤ l.length) :
    (Reducer.spliceInsert l i c).getD i default = c := by
  unfold Reducer.spliceInsert
  have h1 : (l.take i).length = i := by simp; omega
  rw [List.getD_eq_getElem?_getD, List.getElem?_append_left (by simp [h1])]
  rw [List.getElem?_append_right (by omega)]
  simp [h1]

/-- The head of the distance-sorted scale-note list is a scale note of
minimal distance to the reference pitch. -/
theorem distHead_min (m : Int) (sn : List NoteName) (hne : sn ≠ []) :
    ((MusicTheory.stableSort (fun a b => decide (a.2 ≤ b.2))
        (sn.map (fun note => (note, intAbs (MusicTheory.NOTE_TO_MIDI note - m))))).headD
      (.C, 0)).1 ∈ sn ∧
    ∀ n ∈ sn,
      intAbs (MusicTheory.NOTE_TO_MIDI
          ((MusicTheory.stableSort (fun a b => decide (a.2 ≤ b.2))
            (sn.map (fun note => (note, intAbs (MusicTheory.NOTE_TO_MIDI note - m))))).headD
          (.C, 0)).1 - m) ≤
        intAbs (MusicTheory.NOTE_TO_MIDI n - m) := by
  have htotal : ∀ (a b : NoteName × Int),
      (fun a b => decide (a.2 ≤ b.2)) a b = true ∨
        (fun a b => decide (a.2 ≤ b.2)) b a = true := by
    intro a b
    rcases le_total a.2 b.2 with h | h
    · exact Or.inl (decide_eq_true h)
    · exact Or.inr (decide_eq_true h)
  have htrans : ∀ (a b c : NoteName × Int),
      (fun a b => decide (a.2 ≤ b.2)) a b = true →
      (fun a b => decide (a.2 ≤ b.2)) b c = true →
      (fun a b => decide (a.2 ≤ b.2)) a c = true := by
    intro a b c hab hbc
    exact decide_eq_true (le_trans (of_decide_eq_true hab) (of_decide_eq_true hbc))
  have hperm := MusicTheory.stableSort_perm (fun a b => decide (a.2 ≤ b.2))
    (sn.map (fun note => (note, intAbs (MusicTheory.NOTE_TO_MIDI note - m))))
  have hpw := MusicTheory.stableSort_pairwise (fun a b => decide (a.2 ≤ b.2))
    htotal htrans (sn.map (fun note => (note, intAbs (MusicTheory.NOTE_TO_MIDI note - m))))
  cases hsort : MusicTheory.stableSort (fun a b => decide (a.2 ≤ b.2))
      (sn.map (fun note => (note, intAbs (MusicTheory.NOTE_TO_MIDI note - m)))) with
  | nil =>
    exfalso
    rw [hsort] at hperm
    exact hne (List.map_eq_nil_iff.mp hperm.symm.eq_nil)
  | cons hd t =>
    rw [hsort] at hperm hpw
    have hhd_mem : hd ∈ sn.map (fun note => (note, intAbs (MusicTheory.NOTE_TO_MIDI note - m))) :=
      hperm.subset (by simp)
    rcases List.mem_map.mp hhd_mem with ⟨note, hnote, heq⟩
    have h1 : hd.1 = note := by rw [← heq]
    have h2 : hd.2 = intAbs (MusicTheory.NOTE_TO_MIDI note - m) := by rw [← heq]
    constructor
    · simpa [h1] using hnote
    · intro n hn
      have hnL : (n, intAbs (MusicTheory.NOTE_TO_MIDI n - m)) ∈ hd :: t :=
        hperm.symm.subset (List.mem_map.mpr ⟨n, hn, rfl⟩)
      have hle : hd.2 ≤ intAbs (MusicTheory.NOTE_TO_MIDI n - m) := by
        rcases List.mem_cons.mp hnL with hcase | hcase
        · rw [← hcase]
        · exact of_decide_eq_true ((List.pairwise_cons.mp hpw).1 _ hcase)
      simpa [h1, ← h2] using hle

/-- `enrichChord` returns the quality itself or one of its upgrades. -/
theorem enrichChord_mem (q : ChordQuality) (g : Genre) (s : RandStream) (c : Nat)
    (hs : InUnit s) : (ChordGen.enrichChord q g s c).1 ∈ q :: ChordGen.upgrades q := by
  unfold ChordGen.enrichChord
  by_cases h : s c > ChordGen.ENRICHMENT_CHANCE g
  · simp [h]
  · simp only [h, if_false]
    by_cases hl : (ChordGen.upgrades q).length > 0
    · simp only [hl, if_true]
      exact List.mem_cons_of_mem _
        (pickRandomD_mem _ _ (hs (c + 1)).1 (hs (c + 1)).2 (List.length_pos.mp hl))
    · simp [hl]

/-- **C3.**  (a) Inserting a passing chord between a chord rooted on C and
one rooted on G in C major yields a chord rooted on E (the scale tone at
the rounded pitch midpoint 64 of C=60 and G=67), with `durationBeats`
exactly 2 and quality obtained by enriching the rule quality (maj7 by
default, min7 if either neighbour is minor-family, 7 if either neighbour
is a dominant 7).  (b) In general, whenever the exact midpoint pitch class
is out of scale, the passing root is the scale pitch nearest the numeric
midpoint of the two root pitches.  (c) The `INSERT_CHORD` reducer halves
the preceding chord's duration with a floor of 1 beat and splices the new
chord in at the index. -/
theorem passingChord_claims :
    (∀ (prev next : Chord) (genre : Genre) (s : RandStream) (c : Nat), InUnit s →
      prev.root = .C → next.root = .G →
      (ChordGen.generatePassingChord prev next ⟨.C, .major⟩ genre s c).1.root = .E ∧
      (ChordGen.generatePassingChord prev next ⟨.C, .major⟩ genre s c).1.durationBeats = 2 ∧
      (ChordGen.generatePassingChord prev next ⟨.C, .major⟩ genre s c).1.quality ∈
        (if prev.quality = .dom7 ∨ next.quality = .dom7 then ChordQuality.dom7
         else if qualityIncludes prev.quality "min" || qualityIncludes next.quality "min"
         then ChordQuality.min7 else ChordQuality.maj7) ::
        ChordGen.upgrades
          (if prev.quality = .dom7 ∨ next.quality = .dom7 then ChordQuality.dom7
           else if qualityIncludes prev.quality "min" || qualityIncludes next.quality "min"
           then ChordQuality.min7 else ChordQuality.maj7)) ∧
    (∀ (prev next : Chord) (key : Key) (genre : Genre) (s : RandStream) (c : Nat),
      MusicTheory.NOTE_NAMES.getD
          ((jsRound (((MusicTheory.NOTE_TO_MIDI prev.root +
            MusicTheory.NOTE_TO_MIDI next.root : Int) : Rat) / 2) % 12).toNat) .C ∉
        MusicTheory.getScaleNotes key →
      (ChordGen.generatePassingChord prev next key genre s c).1.root ∈
        MusicTheory.getScaleNotes key ∧
      ∀ n ∈ MusicTheory.getScaleNotes key,
        intAbs (MusicTheory.NOTE_TO_MIDI
            (ChordGen.generatePassingChord prev next key genre s c).1.root -
          jsRound (((MusicTheory.NOTE_TO_MIDI prev.root +
            MusicTheory.NOTE_TO_MIDI next.root : Int) : Rat) / 2)) ≤
          intAbs (MusicTheory.NOTE_TO_MIDI n -
            jsRound (((MusicTheory.NOTE_TO_MIDI prev.root +
              MusicTheory.NOTE_TO_MIDI next.root : Int) : Rat) / 2))) ∧
    (∀ (st : AppState) (pid : String) (i : Nat) (newChord : Chord),
      st.mainProgression.id = pid → i ≠ 0 → i ≤ st.mainProgression.chords.length →
      ((Reducer.applyInsertChord st pid i newChord).mainProgression.chords.getD (i - 1)
          default).durationBeats =
        max 1 ((st.mainProgression.chords.getD (i - 1) default).durationBeats / 2) ∧
      (Reducer.applyInsertChord st pid i newChord).mainProgression.chords.getD i default =
        newChord ∧
      (Reducer.applyInsertChord st pid i newChord).mainProgression.chords.length =
        st.mainProgression.chords.length + 1) := by
  refine ⟨?_, ?_, ?_⟩
  · intro prev next genre s c hs hp hn
    refine ⟨?_, ?_, ?_⟩
    · simp only [ChordGen.generatePassingChord, hp, hn]
      rw [show jsRound (((MusicTheory.NOTE_TO_MIDI .C +
          MusicTheory.NOTE_TO_MIDI .G : Int) : Rat) / 2) = 64 by
        unfold jsRound
        norm_num [MusicTheory.NOTE_TO_MIDI]]
      decide
    · simp [ChordGen.generatePassingChord]
    · simp only [ChordGen.generatePassingChord]
      exact enrichChord_mem _ genre s c hs
  · intro prev next key genre s c hout
    have hcont : (MusicTheory.getScaleNotes key).contains
        (MusicTheory.NOTE_NAMES.getD
          ((jsRound (((MusicTheory.NOTE_TO_MIDI prev.root +
            MusicTheory.NOTE_TO_MIDI next.root : Int) : Rat) / 2) % 12).toNat) .C) =
        false := by
      simpa using hout
    have hne : MusicTheory.getScaleNotes key ≠ [] := by
      cases hk : key.scale <;>
        simp [MusicTheory.getScaleNotes, MusicTheory.SCALE_INTERVALS, hk]
    have hmin := distHead_min
      (jsRound (((MusicTheory.NOTE_TO_MIDI prev.root +
        MusicTheory.NOTE_TO_MIDI next.root : Int) : Rat) / 2))
      (MusicTheory.getScaleNotes key) hne
    constructor
    · simp only [ChordGen.generatePassingChord, hcont, Bool.false_eq_true, if_false]
      exact hmin.1
    · intro n hnmem
      simp only [ChordGen.generatePassingChord, hcont, Bool.false_eq_true, if_false]
      exact hmin.2 n hnmem
  · intro st pid i newChord hmain hi0 hilen
    have hguard : ¬(i = 0 ∨ i > st.mainProgression.chords.length) := by omega
    have hfind : Reducer.findProgression st pid = some st.mainProgression := by
      simp [Reducer.findProgression, hmain]
    simp only [Reducer.applyInsertChord, hfind, hguard, if_false, if_pos hmain]
    have hsetlen : (st.mainProgression.chords.set (i - 1)
        { st.mainProgression.chords.getD (i - 1) default with
          durationBeats :=
            max 1 ((st.mainProgression.chords.getD (i - 1) default).durationBeats / 2) }).length =
        st.mainProgression.chords.length := by simp
    refine ⟨?_, ?_, ?_⟩
    · rw [spliceInsert_getD_lt _ _ _ _ (by omega) (by simp; omega)]
      rw [List.getD_eq_getElem?_getD, List.getElem?_set_self (by omega)]
      rfl
    · rw [spliceInsert_getD_self _ _ _ (by simp; omega)]
    · rw [spliceInsert_length _ _ _ (by simp; omega), hsetlen]

/-- **C3 (witness).**  The scenario between concrete C-major and G-major
chords with the constant-zero stream, the nearest-scale-tone fact at the
out-of-scale midpoint between C and C#, and the halving on the concrete
swap-scenario progression. -/
theorem passingChord_claims_witness :
    (ChordGen.generatePassingChord Examples.cmajC Examples.gmajC ⟨.C, .major⟩ .rock
        Examples.sZero 0).1.root = .E ∧
    (ChordGen.generatePassingChord Examples.cmajC Examples.gmajC ⟨.C, .major⟩ .rock
        Examples.sZero 0).1.durationBeats = 2 ∧
    (ChordGen.generatePassingChord Examples.cmajC Examples.csmajC ⟨.C, .major⟩ .rock
        Examples.sZero 0).1.root ∈ MusicTheory.getScaleNotes ⟨.C, .major⟩ ∧
    ((Reducer.applyInsertChord Examples.swapState "main" 2
        Examples.cmajC).mainProgression.chords.getD 1 default).durationBeats =
      max 1 ((Examples.swapState.mainProgression.chords.getD 1 default).durationBeats / 2) :=
  ⟨(passingChord_claims.1 Examples.cmajC Examples.gmajC .rock Examples.sZero 0
      (fun _ => ⟨le_refl 0, by norm_num [Examples.sZero]⟩) rfl rfl).1,
   (passingChord_claims.1 Examples.cmajC Examples.gmajC .rock Examples.sZero 0
      (fun _ => ⟨le_refl 0, by norm_num [Examples.sZero]⟩) rfl rfl).2.1,
   (passingChord_claims.2.1 Examples.cmajC Examples.csmajC ⟨.C, .major⟩ .rock
      Examples.sZero 0 (by with_unfolding_all decide)).1,
   (passingChord_claims.2.2 Examples.swapState "main" 2 Examples.cmajC rfl
      (by decide) (by decide)).1⟩

/-! ### Claim C10: pattern events stay inside their chord's slot -/

/-- Every sustain-pattern event starts at the slot start and ends exactly at
the slot end. -/
theorem sustain_in_slot (notes : List Int) (S d : Rat) :
    ∀ e ∈ ChordPat.generateSustainPattern notes S d,
      S ≤ e.startBeat ∧ e.startBeat + e.durationBeats ≤ S + d := by
  intro e he
  simp only [ChordPat.generateSustainPattern, List.mem_map] at he
  obtain ⟨m, -, rfl⟩ := he
  exact ⟨le_rfl, le_rfl⟩

/-- Arithmetic core of the arpeggio patterns: with `noteInterval =
min 0.25 (d / n)`, the event at index `idx < n` starts at or after the slot
start and (the last event absorbing the remainder) ends by the slot end. -/
theorem arpeggio_bounds (S d : Rat) (n idx : Nat) (hd : 0 < d) (hidx : idx < n) :
    S ≤ S + min (1/4 : Rat) (d / n) * idx ∧
    (S + min (1/4 : Rat) (d / n) * idx) +
      (if idx = n - 1 then d - min (1/4 : Rat) (d / n) * ((n : Rat) - 1)
       else min (1/4 : Rat) (d / n) * (9/10)) ≤ S + d := by
  have hn : 1 ≤ n := by omega
  have hnQ : (1 : Rat) ≤ (n : Rat) := by exact_mod_cast hn
  have hnpos : (0 : Rat) < (n : Rat) := by linarith
  have hni0 : 0 < min (1/4 : Rat) (d / n) :=
    lt_min (by norm_num) (div_pos hd hnpos)
  have hnin : min (1/4 : Rat) (d / n) * (n : Rat) ≤ d := by
    calc min (1/4 : Rat) (d / n) * (n : Rat)
        ≤ (d / n) * (n : Rat) :=
          mul_le_mul_of_nonneg_right (min_le_right _ _) (le_of_lt hnpos)
      _ = d := div_mul_cancel₀ d (ne_of_gt hnpos)
  have hidxQ : (idx : Rat) + 1 ≤ (n : Rat) := by exact_mod_cast hidx
  have hidx0 : (0 : Rat) ≤ (idx : Rat) := by positivity
  refine ⟨by nlinarith, ?_⟩
  by_cases hlast : idx = n - 1
  · rw [if_pos hlast, hlast, Nat.cast_sub hn, Nat.cast_one]
    linarith
  · rw [if_neg hlast]
    have hupper : (idx : Rat) + 9/10 ≤ (n : Rat) := by linarith
    have h2 : min (1/4 : Rat) (d / n) * ((idx : Rat) + 9/10) ≤
        min (1/4 : Rat) (d / n) * (n : Rat) :=
      mul_le_mul_of_nonneg_left hupper (le_of_lt hni0)
    rw [mul_add] at h2
    linarith

/-- Every ascending-arpeggio event lies inside the chord's slot. -/
theorem arpeggioUp_in_slot (notes : List Int) (S d : Rat) (hd : 0 < d) :
    ∀ e ∈ ChordPat.generateArpeggioUpPattern notes S d,
      S ≤ e.startBeat ∧ e.startBeat + e.durationBeats ≤ S + d := by
  intro e he
  simp only [ChordPat.generateArpeggioUpPattern, List.mem_map] at he
  obtain ⟨p, hp, rfl⟩ := he
  have hlt : p.1 < notes.length :=
    (List.getElem?_eq_some.mp (List.mem_enum_iff_getElem?.mp hp)).1
  exact arpeggio_bounds S d notes.length p.1 hd hlt

/-- Every descending-arpeggio event lies inside the chord's slot. -/
theorem arpeggioDown_in_slot (notes : List Int) (S d : Rat) (hd : 0 < d) :
    ∀ e ∈ ChordPat.generateArpeggioDownPattern notes S d,
      S ≤ e.startBeat ∧ e.startBeat + e.durationBeats ≤ S + d := by
  intro e he
  simp only [ChordPat.generateArpeggioDownPattern, List.mem_map] at he
  obtain ⟨p, hp, rfl⟩ := he
  have hlt : p.1 < notes.reverse.length :=
    (List.getElem?_eq_some.mp (List.mem_enum_iff_getElem?.mp hp)).1
  exact arpeggio_bounds S d notes.reverse.length p.1 hd hlt

/-- Every staccato hit starts on its eighth-note offset and, since the hit
index is below `floor (2 d)`, ends at least `0.35` beats before the slot
end. -/
theorem staccato_in_slot (notes : List Int) (S d : Rat) :
    ∀ e ∈ ChordPat.generateStaccatoPattern notes S d,
      S ≤ e.startBeat ∧ e.startBeat + e.durationBeats ≤ S + d := by
  intro e he
  simp only [ChordPat.generateStaccatoPattern, List.mem_flatMap, List.mem_map] at he
  obtain ⟨i, hi, m, -, rfl⟩ := he
  have hiR : i ∈ List.range (⌊d * 2⌋).toNat :=
    (List.takeWhile_sublist _).subset hi
  have hcount : i < (⌊d * 2⌋).toNat := List.mem_range.mp hiR
  have h1 : (i : Int) < ⌊d * 2⌋ := Int.lt_toNat.mp hcount
  have h2 : (i : Rat) + 1 ≤ d * 2 := by
    have hf : ((⌊d * 2⌋ : Int) : Rat) ≤ d * 2 := Int.floor_le _
    have h3 : ((i : Int) : Rat) + 1 ≤ ((⌊d * 2⌋ : Int) : Rat) := by
      exact_mod_cast h1
    push_cast at h3
    linarith
  have hi0 : (0 : Rat) ≤ (i : Rat) := by positivity
  constructor
  · show S ≤ S + (i : Rat) * (1/2)
    linarith
  · show (S + (i : Rat) * (1/2)) + 3/20 ≤ S + d
    linarith

/-- Every strum event starts at or after the slot start and ends exactly at
the slot end. -/
theorem strum_in_slot (notes : List Int) (S d : Rat) (s : RandStream) (c : Nat) :
    ∀ e ∈ (ChordPat.generateStrumPattern notes S d s c).1,
      S ≤ e.startBeat ∧ e.startBeat + e.durationBeats ≤ S + d := by
  intro e he
  simp only [ChordPat.generateStrumPattern, List.mem_map] at he
  obtain ⟨p, hp, rfl⟩ := he
  have h0 : (0 : Rat) ≤ 3/100 * (p.1 : Rat) := by positivity
  constructor
  · show S ≤ S + 3/100 * (p.1 : Rat)
    linarith
  · show (S + 3/100 * (p.1 : Rat)) + (d - 3/100 * (p.1 : Rat)) ≤ S + d
    linarith

/-- Every event produced for a single chord (any pattern string, including
the fallback) lies inside the chord's slot `[start, start + duration]`. -/
theorem generateChordWithPattern_in_slot (chord : Chord) (pattern : String)
    (S : Rat) (s : RandStream) (c : Nat) (hd : 0 < chord.durationBeats) :
    ∀ e ∈ (ChordPat.generateChordWithPattern chord pattern S s c).1,
      S ≤ e.startBeat ∧ e.startBeat + e.durationBeats ≤ S + chord.durationBeats := by
  intro e he
  simp only [ChordPat.generateChordWithPattern] at he
  split at he
  · exact sustain_in_slot _ S _ e he
  · split at he
    · exact arpeggioUp_in_slot _ S _ hd e he
    · split at he
      · exact arpeggioDown_in_slot _ S _ hd e he
      · split at he
        · exact staccato_in_slot _ S _ e he
        · split at he
          · exact strum_in_slot _ S _ s c e he
          · exact sustain_in_slot _ S _ e he

/-- Loop invariant of `generateProgressionChordNotes`: every emitted event
lies inside the slot of the chord that produced it, the slot starting at the
running beat plus the durations of the preceding chords. -/
theorem progChordLoop_slots (pattern : String) (s : RandStream) :
    ∀ (chords : List Chord) (b : Rat) (c : Nat),
      (∀ ch ∈ chords, 0 < ch.durationBeats) →
      ∀ e ∈ ChordPat.progChordLoop pattern s chords b c,
        ∃ i, i < chords.length ∧
          b + ((chords.take i).map (fun ch => ch.durationBeats)).sum ≤ e.startBeat ∧
          e.startBeat + e.durationBeats ≤
            b + ((chords.take i).map (fun ch => ch.durationBeats)).sum +
              (chords.getD i default).durationBeats := by
  intro chords
  induction chords with
  | nil =>
    intro b c _ e he
    simp [ChordPat.progChordLoop] at he
  | cons ch rest ih =>
    intro b c hpos e he
    simp only [ChordPat.progChordLoop, List.mem_append] at he
    rcases he with he | he
    · have hch := generateChordWithPattern_in_slot ch pattern b s c
        (hpos ch (by simp)) e he
      refine ⟨0, Nat.succ_pos _, ?_, ?_⟩
      · simpa using hch.1
      · simpa using hch.2
    · obtain ⟨i, hi, h1, h2⟩ :=
        ih (b + ch.durationBeats) (ChordPat.generateChordWithPattern ch pattern b s c).2
          (fun x hx => hpos x (by simp [hx])) e he
      have hsum : (((ch :: rest).take (i + 1)).map
          (fun ch => ch.durationBeats)).sum =
          ch.durationBeats + ((rest.take i).map (fun ch => ch.durationBeats)).sum := by
        rw [List.take_succ_cons, List.map_cons, List.sum_cons]
      refine ⟨i + 1, by simpa using Nat.succ_lt_succ hi, ?_, ?_⟩
      · rw [hsum]
        linarith
      · rw [hsum, List.getD_cons_succ]
        linarith

/-- **C10.**  For every chord list with positive durations and every pattern
value, every note event emitted lies inside the time slot of the chord that
produced it: per chord, events fall in `[startBeat, startBeat + duration]`;
over a progression, each event fits between the sum of the preceding
durations and that sum plus its chord's duration, hence within the
progression's total beat length. -/
theorem chordPattern_events_in_slots :
    (∀ (chord : Chord) (pattern : String) (startBeat : Rat) (s : RandStream)
        (c : Nat), 0 < chord.durationBeats →
      ∀ e ∈ (ChordPat.generateChordWithPattern chord pattern startBeat s c).1,
        startBeat ≤ e.startBeat ∧
        e.startBeat + e.durationBeats ≤ startBeat + chord.durationBeats) ∧
    (∀ (chords : List Chord) (pattern : String) (s : RandStream),
      (∀ ch ∈ chords, 0 < ch.durationBeats) →
      ∀ e ∈ ChordPat.generateProgressionChordNotes chords pattern s,
        ∃ i, i < chords.length ∧
          ((chords.take i).map (fun ch => ch.durationBeats)).sum ≤ e.startBeat ∧
          e.startBeat + e.durationBeats ≤
            ((chords.take i).map (fun ch => ch.durationBeats)).sum +
              (chords.getD i default).durationBeats ∧
          0 ≤ e.startBeat ∧
          e.startBeat + e.durationBeats ≤
            (chords.map (fun ch => ch.durationBeats)).sum) := by
  constructor
  · intro chord pattern startBeat s c hd e he
    exact generateChordWithPattern_in_slot chord pattern startBeat s c hd e he
  · intro chords pattern s hpos e he
    obtain ⟨i, hi, h1, h2⟩ :=
      progChordLoop_slots pattern s chords 0 0 hpos e he
    rw [zero_add] at h1 h2
    have hpre : (0 : Rat) ≤ ((chords.take i).map (fun ch => ch.durationBeats)).sum := by
      apply List.sum_nonneg
      intro x hx
      obtain ⟨ch, hch, rfl⟩ := List.mem_map.mp hx
      exact le_of_lt (hpos ch (List.mem_of_mem_take hch))
    have hpost : (0 : Rat) ≤
        ((chords.drop (i + 1)).map (fun ch => ch.durationBeats)).sum := by
      apply List.sum_nonneg
      intro x hx
      obtain ⟨ch, hch, rfl⟩ := List.mem_map.mp hx
      exact le_of_lt (hpos ch (List.mem_of_mem_drop hch))
    have hgetD : chords.getD i default = chords[i] := by
      simp [List.getD_eq_getElem?_getD, List.getElem?_eq_getElem hi]
    have hsplit : (chords.map (fun ch => ch.durationBeats)).sum =
        ((chords.take i).map (fun ch => ch.durationBeats)).sum +
          ((chords.getD i default).durationBeats +
            ((chords.drop (i + 1)).map (fun ch => ch.durationBeats)).sum) :=
      calc (chords.map (fun ch => ch.durationBeats)).sum
          = (((chords.take i ++ chords.drop i)).map (fun ch => ch.durationBeats)).sum := by
            rw [List.take_append_drop]
        _ = ((chords.take i).map (fun ch => ch.durationBeats)).sum +
              ((chords.drop i).map (fun ch => ch.durationBeats)).sum := by
            rw [List.map_append, List.sum_append]
        _ = ((chords.take i).map (fun ch => ch.durationBeats)).sum +
              ((chords.getD i default).durationBeats +
                ((chords.drop (i + 1)).map (fun ch => ch.durationBeats)).sum) := by
            rw [List.drop_eq_getElem_cons hi, List.map_cons, List.sum_cons, hgetD]
    refine ⟨i, hi, h1, h2, by linarith, by linarith⟩

/-- **C10 (witness).**  Instantiating the progression statement on the
one-chord progression `[Cmaj]` with the sustain pattern and the zero
stream, at the concrete event `(60, 0, 4, 80)`. -/
theorem chordPattern_events_in_slots_witness :
    ((0 : Rat) < Examples.cmajC.durationBeats) ∧
    (∃ i, i < [Examples.cmajC].length ∧
      (([Examples.cmajC].take i).map (fun ch => ch.durationBeats)).sum ≤
        Examples.susEv.startBeat ∧
      Examples.susEv.startBeat + Examples.susEv.durationBeats ≤
        (([Examples.cmajC].take i).map (fun ch => ch.durationBeats)).sum +
          ([Examples.cmajC].getD i default).durationBeats ∧
      0 ≤ Examples.susEv.startBeat ∧
      Examples.susEv.startBeat + Examples.susEv.durationBeats ≤
        ([Examples.cmajC].map (fun ch => ch.durationBeats)).sum) :=
  ⟨by with_unfolding_all decide,
   chordPattern_events_in_slots.2 [Examples.cmajC] "sustain" Examples.sZero
     (by with_unfolding_all decide) Examples.susEv
     (by with_unfolding_all decide)⟩

end ChordGenModel
